import Mathlib

/-!
# Verification of the plan/apply reconciliation engine of file-mover-for-google-drive

This file gives a shallow embedding, in Lean 4, of the data model and the
operations of the repository `file-mover-for-google-drive` that the claims
C1..C10 are about, and proves or refutes each claim.

The embedding follows the Python source:
* `src/file_mover_for_google_drive/common/models.py` (entries, permissions,
  configuration, enumerations),
* `src/file_mover_for_google_drive/common/interact.py`
  (`GoogleDriveActions.get_pair_copy_entry` and the remote mutation actions),
* `src/file_mover_for_google_drive/common/report_plan.py`
  (`PlanReportBuilder.check_*`),
* `src/file_mover_for_google_drive/common/utils.py` (`GoogleDriveEntryCache`),
* `src/file_mover_for_google_drive/actions/apply.py` (the apply executor).

The remote Google Drive store is modelled as an explicit state
(`DriveState`): a list of entries plus a counter of remote mutation calls.
Code that raises a Python exception is modelled with `Except String`.
Fields of the Python dataclasses that none of the embedded logic reads
(timestamps, sizes, checksums, links, report directories, auth files) are
omitted; every field that the embedded logic reads is kept under its
source name.
-/

namespace FileMover

/-- `GoogleDrivePermissionRoleOptions` of models.py; the `.value` strings are
given by `PermRole.value`. -/
inductive PermRole
  | owner
  | editor
  | commenter
  | viewer
  | organizer
  | fileOrganizer
  deriving DecidableEq

/-- The `.value` string of each member of `GoogleDrivePermissionRoleOptions`. -/
def PermRole.value : PermRole → String
  | .owner => "owner"
  | .editor => "writer"
  | .commenter => "commenter"
  | .viewer => "reader"
  | .organizer => "organizer"
  | .fileOrganizer => "fileOrganizer"

/-- `GoogleDrivePermissionTypeOptions` of models.py. -/
inductive PermType
  | user
  | group
  | domain
  | anyone
  deriving DecidableEq

/-- `GoogleDriveAccountTypeOptions` of models.py. -/
inductive AccountType
  | personal
  | business
  deriving DecidableEq

/-- `PlanReportOutcomes` of models.py. -/
inductive PlanReportOutcomes
  | UNKNOWN
  | SUCCESS
  | SKIPPED
  | FAILED
  deriving DecidableEq

/-- In Python, comparing a member of the `enum.Enum` subclass
`GoogleDrivePermissionRoleOptions` with a `str` (such as
`GoogleDrivePermissionRoleOptions.OWNER.value`) with `==` always evaluates to
`False`: `Enum.__eq__` falls back to identity for non-member operands.  The
source performs exactly such a comparison in
`PlanReportBuilder.check_delete_permission` and
`GoogleDriveContainer.delete_permissions`; this function is its faithful
embedding. -/
def pyEnumEqStr (_ : PermRole) (_ : String) : Bool := false

/-- `GoogleDrivePermission` of models.py (fields under their source names;
`display_name` is kept although the embedded logic never branches on it). -/
structure GoogleDrivePermission where
  entry_type : PermType
  role : PermRole
  entry_id : String
  user_email : Option String := none
  domain : Option String := none
  display_name : Option String := none
  deriving DecidableEq

/-- The key string `GoogleDrivePropertyKeyOptions.CUSTOM_COPY_FILE_ID.value`:
put on an original (not owned) entry, holds the id of the copied entry. -/
def key_copy : String := "CustomFileMoverCopyFileId"

/-- The key string `GoogleDrivePropertyKeyOptions.CUSTOM_ORIGINAL_FILE_ID.value`:
put on a copied (owned) entry, holds the id of the original entry. -/
def key_orig : String := "CustomFileMoverOriginalFileId"

/-- `GoogleDriveEntry.mime_type_dir()` of models.py. -/
def mime_type_dir : String := "application/vnd.google-apps.folder"

/-- `GoogleDriveEntry` of models.py.  `properties_shared` is the Python dict
of shared custom properties, modelled as an association list (lookup takes
the first binding of a key). -/
structure GoogleDriveEntry where
  name : String
  mime_type : String
  entry_id : String
  parent_id : String
  properties_shared : List (String × String)
  permissions_all : List GoogleDrivePermission
  deriving DecidableEq

/-- `GoogleDriveEntry.custom_property`: `self.properties_shared.get(key, None)`. -/
def GoogleDriveEntry.custom_property (e : GoogleDriveEntry) (key : String) :
    Option String :=
  (e.properties_shared.find? (fun kv => kv.1 == key)).map (fun kv => kv.2)

/-- `GoogleDriveEntry.is_dir`. -/
def GoogleDriveEntry.is_dir (e : GoogleDriveEntry) : Bool :=
  e.mime_type == mime_type_dir

/-- `GoogleDriveEntry.is_copy`: the `CUSTOM_ORIGINAL_FILE_ID` property is
present and non-empty. -/
def GoogleDriveEntry.is_copy (e : GoogleDriveEntry) : Bool :=
  match e.custom_property key_orig with
  | some v => v.length > 0
  | none => false

/-- `GoogleDriveEntry.is_original`: the `CUSTOM_COPY_FILE_ID` property is
present and non-empty. -/
def GoogleDriveEntry.is_original (e : GoogleDriveEntry) : Bool :=
  match e.custom_property key_copy with
  | some v => v.length > 0
  | none => false

/-- `GoogleDriveEntry.permission_owner_user` of models.py: collect the
permissions with role `owner` and type `user` (both compared as enum members
in the source, so an honest enum comparison here); zero collected owners or
more than one raises `ValueError`, exactly one is returned. -/
def GoogleDriveEntry.permission_owner_user (e : GoogleDriveEntry) :
    Except String GoogleDrivePermission :=
  match e.permissions_all.filter
    (fun p => p.role == PermRole.owner && p.entry_type == PermType.user) with
  | [] => .error "Found no owner for entry."
  | [p] => .ok p
  | _ => .error "Found more than one owner for entry."

/-- `GoogleDriveEntry.is_owned_by`: compares the owner permission user email
with the given email (`None == email` is `False` in Python, so the comparison
is against `some email`). -/
def GoogleDriveEntry.is_owned_by (e : GoogleDriveEntry) (email : String) :
    Except String Bool :=
  match e.permission_owner_user with
  | .error msg => .error msg
  | .ok p => .ok (p.user_email == some email)

/-- `ConfigAccount` of models.py. -/
structure ConfigAccount where
  account_type : AccountType
  drive_id : String
  account_id : String
  top_folder_id : String
  deriving DecidableEq

/-- `ConfigActions` of models.py, plus the field
`permissions_user_emails_keep`.

Modelled from the spec: the keep-list field `permissions_user_emails_keep`
is read by `Apply._apply_delete_permission` (apply.py lines 318-321) and is
constructed by the test fixture `tests/conftest.py`, but its declaration is
missing from the `ConfigActions` dataclass in the checked-in models.py (the
models.py in the tree is a stale revision); the spec describes it as "a
configured keep-list of user emails". -/
structure ConfigActions where
  permissions_delete_other_users : Bool
  permissions_delete_link : Bool
  entry_name_delete_prefix_copy_of : Bool
  create_owned_file_copy : Bool
  create_owned_folder_and_move_contents : Bool
  permissions_user_emails_keep : List String
  deriving DecidableEq

/-- `ConfigProgram` of models.py restricted to the parts the reconciliation
engine reads (`auth` and `reports` are only consumed by the I/O shell). -/
structure ConfigProgram where
  actions : ConfigActions
  account : ConfigAccount
  deriving DecidableEq

/-- The remote Google Drive store: the entries it holds, plus a counter of
remote mutation calls (files.create, files.copy, files.update,
permissions.delete) used to observe whether a run performed mutations. -/
structure DriveState where
  entries : List GoogleDriveEntry
  muts : Nat
  deriving DecidableEq

/-- `GoogleDriveActions.get_entry` resolved against the store: the remote
`files.get` keyed by entry id (the gateway surfaces a fatal error when the id
does not resolve, hence `Option` here and `Except` at the call sites). -/
def findEntry (s : DriveState) (entry_id : String) : Option GoogleDriveEntry :=
  s.entries.find? (fun e => e.entry_id == entry_id)

/-- `GoogleDriveContainer.get_entries_by_property` resolved against the
store: the remote query `properties has (key and value) and trashed=false`. -/
def getEntriesByProperty (s : DriveState) (key value : String) :
    List GoogleDriveEntry :=
  s.entries.filter (fun e => e.custom_property key == some value)

/-- Python dict update `(dict with key set to value)` on an association
list: drop the old bindings of the key and bind it to the new value. -/
def setProp (props : List (String × String)) (key value : String) :
    List (String × String) :=
  (props.filter (fun kv => kv.1 != key)) ++ [(key, value)]

/-- Replace, in the store, every entry carrying the given id using `f`
(`f` preserves `entry_id` at every use site). -/
def updateEntries (es : List GoogleDriveEntry) (entry_id : String)
    (f : GoogleDriveEntry → GoogleDriveEntry) : List GoogleDriveEntry :=
  es.map (fun e => if e.entry_id == entry_id then f e else e)

/-- The query-and-validate tail of `get_pair_copy_entry`, for an already
selected `prop_key` (queried) and `pair_key` (checked back on the querying
entry): `if not prop_key: return None` (never taken: both keys are
non-empty constants), query, raise on more than one match, return `none` on
no match, check the back-reference on a single match. -/
def get_pair_lookup (s : DriveState) (entry : GoogleDriveEntry)
    (prop_key pair_key : String) : Except String (Option GoogleDriveEntry) :=
  if prop_key.isEmpty then .ok none
  else
    match getEntriesByProperty s prop_key entry.entry_id with
    | [] => .ok none
    | [pair_entry] =>
      if entry.custom_property pair_key == some pair_entry.entry_id then
        .ok (some pair_entry)
      else
        .error "Found pair does not have the expected property."
    | _ => .error "More than one match for property."

/-- `GoogleDriveActions.get_pair_copy_entry` of interact.py.

For an original (un-owned) entry, get the owned copy if it exists; for an
owned entry, get the original.  Raises (`Except.error`) when the account is
not personal, when the remote property query returns more than one match,
and when the found pair does not carry the id recorded in the querying
entry (`entry.properties_shared.get(pair_key) != pair_entry.entry_id`;
in Python a missing key gives `None`, which also differs from the id). -/
def get_pair_copy_entry (cfg : ConfigProgram) (s : DriveState)
    (entry : GoogleDriveEntry) : Except String (Option GoogleDriveEntry) :=
  if cfg.account.account_type != AccountType.personal then
    .error "Entry pairs only work in personal accounts."
  else
    match entry.is_owned_by cfg.account.account_id with
    | .error msg => .error msg
    | .ok entry_is_owned =>
      if entry_is_owned then
        -- owned (might be a copy): look for the unowned original, and check
        -- the found entry against the original-id recorded on this entry
        get_pair_lookup s entry key_copy key_orig
      else
        -- not owned (the original): look for the owned copy, and check the
        -- found entry against the copy-id recorded on this entry
        get_pair_lookup s entry key_orig key_copy

/-- `PlanReportBuilder.check_create_folder` of report_plan.py. -/
def check_create_folder (account : ConfigAccount) (entry : GoogleDriveEntry) :
    Except String Unit :=
  if !entry.is_dir then .error "Entry is not a folder."
  else if account.account_type != AccountType.personal then
    .error "Not a personal account."
  else .ok ()

/-- `PlanReportBuilder.check_copy_file` of report_plan.py. -/
def check_copy_file (account : ConfigAccount) (entry : GoogleDriveEntry) :
    Except String Unit :=
  if entry.is_dir then .error "Entry is not a file."
  else if account.account_type != AccountType.personal then
    .error "Not a personal account."
  else .ok ()

/-- `PlanReportBuilder.check_rename_file` of report_plan.py (the
`if not entry` guard of the source cannot fire here because the apply
executor always passes the fetched entry).  Note the source requires a
business account for renames, unlike every other check. -/
def check_rename_file (account : ConfigAccount) (entry : GoogleDriveEntry) :
    Except String Unit :=
  if entry.is_dir then .error "Entry is not a file."
  else if account.account_type != AccountType.business then
    .error "Not a business account."
  else .ok ()

/-- `PlanReportBuilder.check_delete_permission` of report_plan.py.  The
owner test of the source is
`permission.role == GoogleDrivePermissionRoleOptions.OWNER.value`, an
enum-to-string comparison embedded by `pyEnumEqStr` (see there). -/
def check_delete_permission (account : ConfigAccount)
    (permission : GoogleDrivePermission) : Except String Unit :=
  if pyEnumEqStr permission.role "owner" then
    .error "Cannot delete owner role."
  else if account.account_type != AccountType.personal then
    .error "Not a personal account."
  else .ok ()

/-- `PlanReportBuilder.check_move_entry` of report_plan.py. -/
def check_move_entry (account : ConfigAccount) : Except String Unit :=
  if account.account_type != AccountType.personal then
    .error "Not a personal account."
  else .ok ()

/-- A permission the remote store attaches to a newly created or copied
entry: the requesting account becomes the owner. -/
def ownerPermissionOf (account_id : String) : GoogleDrivePermission :=
  { entry_type := PermType.user
    role := PermRole.owner
    entry_id := "owner-permission"
    user_email := some account_id
    display_name := some account_id }

/-- `GoogleDriveActions.create_folder` of interact.py: a `files.create` that
builds a sibling folder with the same name and parent, carrying the property
`CUSTOM_ORIGINAL_FILE_ID = entry.entry_id` (the remote store assigns the
fresh id `freshId` and makes the caller the owner), followed by
`record_copy`, a `files.update` that merges
`CUSTOM_COPY_FILE_ID = freshId` into the original entry's properties.
Two remote mutation calls.  Returns (state, new entry, updated original). -/
def create_folder_action (cfg : ConfigProgram) (s : DriveState)
    (entry : GoogleDriveEntry) (freshId : String) :
    DriveState × GoogleDriveEntry × GoogleDriveEntry :=
  let new_entry : GoogleDriveEntry :=
    { name := entry.name
      mime_type := mime_type_dir
      entry_id := freshId
      parent_id := entry.parent_id
      properties_shared := [(key_orig, entry.entry_id)]
      permissions_all := [ownerPermissionOf cfg.account.account_id] }
  let updated : GoogleDriveEntry :=
    { entry with properties_shared := setProp entry.properties_shared key_copy freshId }
  ( { entries := (updateEntries s.entries entry.entry_id (fun _ => updated)) ++ [new_entry]
      muts := s.muts + 2 },
    new_entry, updated )

/-- `GoogleDriveActions.copy_file` of interact.py: as `create_folder_action`
but through `files.copy`, so the new entry keeps the source mime type. -/
def copy_file_action (cfg : ConfigProgram) (s : DriveState)
    (entry : GoogleDriveEntry) (freshId : String) :
    DriveState × GoogleDriveEntry × GoogleDriveEntry :=
  let new_entry : GoogleDriveEntry :=
    { name := entry.name
      mime_type := entry.mime_type
      entry_id := freshId
      parent_id := entry.parent_id
      properties_shared := [(key_orig, entry.entry_id)]
      permissions_all := [ownerPermissionOf cfg.account.account_id] }
  let updated : GoogleDriveEntry :=
    { entry with properties_shared := setProp entry.properties_shared key_copy freshId }
  ( { entries := (updateEntries s.entries entry.entry_id (fun _ => updated)) ++ [new_entry]
      muts := s.muts + 2 },
    new_entry, updated )

/-- `GoogleDriveActions.rename_entry`: a `files.update` setting the name. -/
def rename_entry_action (s : DriveState) (entry_id new_name : String) :
    DriveState :=
  { entries := updateEntries s.entries entry_id (fun e => { e with name := new_name })
    muts := s.muts + 1 }

/-- `GoogleDriveActions.move_entry`: a `files.update` replacing the parent. -/
def move_entry_action (s : DriveState) (entry_id new_parent_id : String) :
    DriveState :=
  { entries := updateEntries s.entries entry_id (fun e => { e with parent_id := new_parent_id })
    muts := s.muts + 1 }

/-- `GoogleDriveActions.delete_permission`: a `permissions.delete` keyed by
entry id and permission id. -/
def delete_permission_action (s : DriveState) (entry_id : String)
    (permission_id : Option String) : DriveState :=
  { entries := updateEntries s.entries entry_id
      (fun e => { e with permissions_all :=
        e.permissions_all.filter (fun p => !(some p.entry_id == permission_id)) })
    muts := s.muts + 1 }

/-- The fields of the persisted `PlanReport` row (report.py) that the apply
executor reads.  The remaining columns (names, paths, access levels, drive
and account identification) are carried through to the outcome row verbatim
and never branched on, so they are omitted here. -/
structure PlanReport where
  item_action : String
  entry_id : Option String
  permission_id : Option String
  begin_user_email : Option String
  end_user_email : Option String
  end_entry_name : Option String
  end_entry_path : Option String
  deriving DecidableEq

/-- The result part of an `OutcomeReport` row: `result_name` and
`result_description` (the other columns echo the plan row). -/
abbrev Outcome := PlanReportOutcomes × String

/-- `Apply._apply_create_folder` of apply.py. -/
def apply_create_folder (cfg : ConfigProgram) (s : DriveState)
    (entry : GoogleDriveEntry) (freshId : String) :
    Except String (Outcome × DriveState) :=
  if !cfg.actions.create_owned_folder_and_move_contents then
    .ok ((PlanReportOutcomes.SKIPPED, "Config prevented executing plan action"), s)
  else
    match check_create_folder cfg.account entry with
    | .error msg => .error msg
    | .ok () =>
      match get_pair_copy_entry cfg s entry with
      | .error msg => .error msg
      | .ok (some _) =>
        .ok ((PlanReportOutcomes.SKIPPED, "Folder already exists."), s)
      | .ok none =>
        let r := create_folder_action cfg s entry freshId
        .ok ((PlanReportOutcomes.SUCCESS, "Created new folder."), r.1)

/-- `Apply._apply_copy_file` of apply.py. -/
def apply_copy_file (cfg : ConfigProgram) (s : DriveState)
    (entry : GoogleDriveEntry) (freshId : String) :
    Except String (Outcome × DriveState) :=
  if !cfg.actions.create_owned_file_copy then
    .ok ((PlanReportOutcomes.SKIPPED, "Config prevented executing plan action"), s)
  else
    match check_copy_file cfg.account entry with
    | .error msg => .error msg
    | .ok () =>
      match get_pair_copy_entry cfg s entry with
      | .error msg => .error msg
      | .ok (some _) =>
        .ok ((PlanReportOutcomes.SKIPPED, "File already exists."), s)
      | .ok none =>
        let r := copy_file_action cfg s entry freshId
        .ok ((PlanReportOutcomes.SUCCESS, "Copied file."), r.1)

/-- `Apply._apply_rename_file` of apply.py (the final rename goes through
`GoogleDriveContainer.rename_entry`, which raises when the new name is
missing or empty). -/
def apply_rename_file (cfg : ConfigProgram) (s : DriveState)
    (plan : PlanReport) (entry : GoogleDriveEntry) :
    Except String (Outcome × DriveState) :=
  if !cfg.actions.entry_name_delete_prefix_copy_of then
    .ok ((PlanReportOutcomes.SKIPPED, "Config prevented executing plan action"), s)
  else
    match check_rename_file cfg.account entry with
    | .error msg => .error msg
    | .ok () =>
      if some entry.name == plan.end_entry_name then
        .ok ((PlanReportOutcomes.SKIPPED, "File name is already as expected."), s)
      else
        match plan.end_entry_name with
        | none => .error "No new name given."
        | some new_name =>
          if new_name.isEmpty then .error "No new name given."
          else
            .ok ((PlanReportOutcomes.SUCCESS, "Renamed file."),
              rename_entry_action s entry.entry_id new_name)

/-- `Apply._apply_delete_permission` of apply.py: look the permission up by
id on the freshly fetched entry, skip when absent, run
`check_delete_permission`, apply the two per-type config gates and the
keep-list gate, else delete remotely. -/
def apply_delete_permission (cfg : ConfigProgram) (s : DriveState)
    (plan : PlanReport) (entry : GoogleDriveEntry) :
    Except String (Outcome × DriveState) :=
  match entry.permissions_all.find? (fun p => some p.entry_id == plan.permission_id) with
  | none => .ok ((PlanReportOutcomes.SKIPPED, "The permission does not exist."), s)
  | some permission =>
    match check_delete_permission cfg.account permission with
    | .error msg => .error msg
    | .ok () =>
      if permission.entry_type == PermType.anyone
          && !cfg.actions.permissions_delete_link then
        .ok ((PlanReportOutcomes.SKIPPED, "Config prevented executing plan action"), s)
      else if permission.entry_type != PermType.anyone
          && !cfg.actions.permissions_delete_other_users then
        .ok ((PlanReportOutcomes.SKIPPED, "Config prevented executing plan action"), s)
      else if (match plan.begin_user_email with
          | some e => cfg.actions.permissions_user_emails_keep.contains e
          | none => false)
        || (match plan.end_user_email with
          | some e => cfg.actions.permissions_user_emails_keep.contains e
          | none => false) then
        .ok ((PlanReportOutcomes.SKIPPED, "Config prevented executing plan action"), s)
      else
        match plan.entry_id with
        | none => .error "Require a valid entry id."
        | some eid =>
          .ok ((PlanReportOutcomes.SUCCESS, "Deleted permission."),
            delete_permission_action s eid plan.permission_id)

/-- `Apply._apply_move_entry` of apply.py: resolve the current parent's
pair as the move target; `FAILED` when there is none, `SKIPPED` when the
found entry is not a copy, `FAILED` when it is not a folder; for an unowned
entry resolve its own pair as the thing to move (`FAILED` when absent);
`SKIPPED` when it is already under the target; else move. -/
def apply_move_entry (cfg : ConfigProgram) (s : DriveState)
    (entry : GoogleDriveEntry) : Except String (Outcome × DriveState) :=
  if !cfg.actions.create_owned_folder_and_move_contents then
    .ok ((PlanReportOutcomes.SKIPPED, "Config prevented executing plan action"), s)
  else
    match check_move_entry cfg.account with
    | .error msg => .error msg
    | .ok () =>
      match findEntry s entry.parent_id with
      | none => .error "Require a valid entry id to fetch."
      | some entry_parent =>
        match get_pair_copy_entry cfg s entry_parent with
        | .error msg => .error msg
        | .ok none =>
          .ok ((PlanReportOutcomes.FAILED, "Could not find owned folder."), s)
        | .ok (some entry_parent_other) =>
          if !entry_parent_other.is_copy then
            .ok ((PlanReportOutcomes.SKIPPED,
              "The found folder is not an owned copy (this could mean the move was already done)."), s)
          else if !entry_parent_other.is_dir then
            .ok ((PlanReportOutcomes.FAILED, "The found entry is not a folder."), s)
          else
            match entry.is_owned_by cfg.account.account_id with
            | .error msg => .error msg
            | .ok owned =>
              let to_move_found : Except String (Option GoogleDriveEntry) :=
                if owned then .ok (some entry) else get_pair_copy_entry cfg s entry
              match to_move_found with
              | .error msg => .error msg
              | .ok none =>
                .ok ((PlanReportOutcomes.FAILED,
                  "There is no owned copy of the file. Check the order of the plans."), s)
              | .ok (some to_move) =>
                if to_move.parent_id == entry_parent_other.entry_id then
                  .ok ((PlanReportOutcomes.SKIPPED,
                    "The file is already in the expected folder."), s)
                else
                  .ok ((PlanReportOutcomes.SUCCESS, "Moved entry into folder."),
                    move_entry_action s to_move.entry_id entry_parent_other.entry_id)

/-- `Apply._apply_plan` of apply.py: require an entry id, fetch the entry
(the gateway raises when the id does not resolve), then dispatch on
`item_action` (the source converts the string through the
`PlanReportActions` enum and raises on an unknown action). -/
def apply_plan (cfg : ConfigProgram) (s : DriveState) (plan : PlanReport)
    (freshId : String) : Except String (Outcome × DriveState) :=
  match plan.entry_id with
  | none => .error "Require a valid entry id to apply a plan item."
  | some eid =>
    match findEntry s eid with
    | none => .error "Require a valid entry id to fetch."
    | some entry =>
      if plan.item_action == "create-folder" then
        apply_create_folder cfg s entry freshId
      else if plan.item_action == "copy-file" then
        apply_copy_file cfg s entry freshId
      else if plan.item_action == "rename-file" then
        apply_rename_file cfg s plan entry
      else if plan.item_action == "delete-permission" then
        apply_delete_permission cfg s plan entry
      else if plan.item_action == "move-entry" then
        apply_move_entry cfg s entry
      else .error "Plan is not implemented."

/-- `GoogleDriveEntryCache` of utils.py: the designated top folder id and
the dict from entry id to entry.  `add` keys the dict by `entry.entry_id`,
so the dict is modelled as a list of entries looked up by `entry_id`. -/
structure GoogleDriveEntryCache where
  top_folder_id : String
  cache : List GoogleDriveEntry

/-- Dict lookup `self._cache.get(current_id)`. -/
def cacheGet (c : GoogleDriveEntryCache) (entry_id : String) :
    Option GoogleDriveEntry :=
  c.cache.find? (fun e => e.entry_id == entry_id)

/-- The `while True` walk of `GoogleDriveEntryCache.path`, with explicit
fuel: look the current id up (raising when absent), append the entry, stop
when the top folder id is reached, else continue at the parent id.  The
Python loop has no fuel; on a parent cycle that never reaches the top it
simply never terminates, a behaviour outside every claim, and the fuel
`cache size + 1` given by `path` is enough for every terminating walk
(a terminating walk never revisits an id). -/
def pathAux (c : GoogleDriveEntryCache) :
    Nat → String → List GoogleDriveEntry → Except String (List GoogleDriveEntry)
  | 0, _, _ => .error "Walk exceeded the cache size."
  | fuel + 1, current_id, result =>
    match cacheGet c current_id with
    | none => .error "Could not get entry id."
    | some entry =>
      if entry.entry_id == c.top_folder_id then .ok (result ++ [entry])
      else pathAux c fuel entry.parent_id (result ++ [entry])

/-- `GoogleDriveEntryCache.path` of utils.py: walk the parent links from the
given id up to the top folder, then reverse, producing root-to-entry order. -/
def cachePath (c : GoogleDriveEntryCache) (entry_id : String) :
    Except String (List GoogleDriveEntry) :=
  match pathAux c (c.cache.length + 1) entry_id [] with
  | .ok result => .ok result.reverse
  | .error msg => .error msg

/-! ## The plan builder's rename pass (modelled from the spec)

The current plan builder — the one exercised by `tests/test_action_plan.py`
— is not in the checked-in tree: `actions/plan.py` is a stale revision of a
different design (it references `models.Config`, `get_pair` and permission
fields that no longer exist).  Its rename pass is therefore modelled from
the spec. -/

/-- The lowercase comparison image of the name marker `"Copy of "`. -/
def copyOfLower : List Char := "copy of ".toList

/-- Modelled from the spec: "Counts leading case-insensitive `Copy of `
repetitions" — repeatedly strip the 8-character marker, case-insensitively,
returning the count of repetitions and the remaining characters.  Structural
fuel (the character count) makes the definition kernel-computable; each
strip consumes 8 characters, so the fuel is never exhausted. -/
def copyOfSplitAux : Nat → List Char → Nat × List Char
  | 0, cs => (0, cs)
  | fuel + 1, cs =>
    if (cs.take 8).map Char.toLower == copyOfLower then
      let r := copyOfSplitAux fuel (cs.drop 8)
      (r.1 + 1, r.2)
    else (0, cs)

/-- Count and strip the leading case-insensitive `"Copy of "` repetitions. -/
def copyOfSplit (cs : List Char) : Nat × List Char :=
  copyOfSplitAux cs.length cs

/-- Modelled from the spec: recognise a `"copy (xN)"` marker starting at the
head of the characters — the literal `copy (x`, one or more digits, `)` —
returning the count N and the characters after the marker. -/
def parseCopyMarker (cs : List Char) : Option (Nat × List Char) :=
  match cs with
  | 'c' :: 'o' :: 'p' :: 'y' :: ' ' :: '(' :: 'x' :: rest =>
    let ds := rest.takeWhile Char.isDigit
    if ds.isEmpty then none
    else
      match rest.drop ds.length with
      | ')' :: after =>
        some (ds.foldl (fun a c => a * 10 + (c.toNat - 48)) 0, after)
      | _ => none
  | _ => none

/-- Modelled from the spec: find the first `"copy (xN)"` marker in the
characters, returning the characters before it, the count N, and the
characters after it. -/
def findCopyMarker : List Char → Option (List Char × Nat × List Char)
  | [] => none
  | c :: cs =>
    match parseCopyMarker (c :: cs) with
    | some (n, after) => some ([], n, after)
    | none =>
      match findCopyMarker cs with
      | some (before, n, after) => some (c :: before, n, after)
      | none => none

/-- Render a `"copy (xN)"` marker. -/
def copyMarkerText (n : Nat) : List Char :=
  "copy (x".toList ++ (Nat.repr n).toList ++ [')']

/-- Modelled from the spec: the cleaned end name of the rename pass.
"Counts leading case-insensitive `Copy of ` repetitions; if the name also
contains a previous `copy (xN)` suffix pattern, combines counts" — the
combined count replaces the existing marker in place (spec example:
`Copy of report copy (x1).pdf` yields `report copy (x2).pdf`); with no
existing marker and a positive count the marker is appended (spec example:
`Copy of Copy of report.pdf` yields `report.pdf copy (x2)`). -/
def cleanEntryName (name : String) : String :=
  let split := copyOfSplit name.toList
  match findCopyMarker split.2 with
  | some (before, n, after) =>
    String.mk (before ++ copyMarkerText (n + split.1) ++ after)
  | none =>
    if split.1 > 0 then
      String.mk (split.2 ++ [' '] ++ copyMarkerText split.1)
    else String.mk split.2

/-- Modelled from the spec: the rename pass runs "only for owned files
(never folders, never unowned entries)"; "If any prefix was stripped and
`entry_name_delete_prefix_copy_of` is enabled, emit RENAME_FILE with the
cleaned name".  Returns the end name of the emitted RENAME_FILE item, or
`none` when nothing is emitted. -/
def renamePassEndName (enabled owned isDir : Bool) (name : String) :
    Option String :=
  if owned && !isDir && enabled && decide (0 < (copyOfSplit name.toList).1) then
    some (cleanEntryName name)
  else none

/-! ## Helper facts and concrete fixtures -/

theorem key_copy_not_empty : key_copy.isEmpty = false := rfl

theorem key_orig_not_empty : key_orig.isEmpty = false := rfl

/-- A personal-account configuration with every action enabled and an empty
keep-list (mirrors the fixture of tests/conftest.py). -/
def cfgAllOn : ConfigProgram :=
  { actions :=
      { permissions_delete_other_users := true
        permissions_delete_link := true
        entry_name_delete_prefix_copy_of := true
        create_owned_file_copy := true
        create_owned_folder_and_move_contents := true
        permissions_user_emails_keep := [] }
    account :=
      { account_type := AccountType.personal
        drive_id := "My Drive"
        account_id := "current-user@example.com"
        top_folder_id := "top" } }

/-- An owner permission held by a user other than the configured account. -/
def victimOwnerPermission : GoogleDrivePermission :=
  { entry_type := PermType.user
    role := PermRole.owner
    entry_id := "perm-owner-1"
    user_email := some "victim@example.com"
    display_name := some "Victim" }

/-- A file whose only permission is `victimOwnerPermission`. -/
def victimDocEntry : GoogleDriveEntry :=
  { name := "Doc"
    mime_type := "application/pdf"
    entry_id := "e1"
    parent_id := "top"
    properties_shared := []
    permissions_all := [victimOwnerPermission] }

/-- A store holding only `victimDocEntry`, with no mutations recorded. -/
def victimDocState : DriveState := { entries := [victimDocEntry], muts := 0 }

/-- A persisted DELETE_PERMISSION plan row naming the owner permission of
`victimDocEntry`. -/
def ownerDeletePlan : PlanReport :=
  { item_action := "delete-permission"
    entry_id := some "e1"
    permission_id := some "perm-owner-1"
    begin_user_email := some "victim@example.com"
    end_user_email := none
    end_entry_name := none
    end_entry_path := none }

/-! ## Claims -/

/-- Claim C2: for every entry, the pairing resolver raises a fatal error,
rather than returning either candidate, whenever the remote
property-equality query for the pairing key returns more than one matching
entry — pairing must be 1:1.  (The account-type guard and the owner
resolution precede the query in the source, so they appear as hypotheses;
`b` is the entry's ownership, which selects the queried key.) -/
theorem get_pair_copy_entry_multi
    (cfg : ConfigProgram) (s : DriveState) (entry : GoogleDriveEntry) (b : Bool)
    (hacct : cfg.account.account_type = AccountType.personal)
    (howned : entry.is_owned_by cfg.account.account_id = .ok b)
    (hlen : 1 < (getEntriesByProperty s (if b then key_copy else key_orig) entry.entry_id).length) :
    ∃ msg, get_pair_copy_entry cfg s entry = .error msg := by
  unfold get_pair_copy_entry
  rw [hacct, howned]
  rcases hq : getEntriesByProperty s (if b then key_copy else key_orig) entry.entry_id with _ | ⟨a, _ | ⟨a2, tl⟩⟩
  · rw [hq] at hlen; simp at hlen
  · rw [hq] at hlen; simp at hlen
  · refine ⟨"More than one match for property.", ?_⟩
    cases b <;> simp_all [get_pair_lookup, key_copy_not_empty, key_orig_not_empty]

/-- An entry that is not owned by the `cfgAllOn` account and carries no
pairing properties. -/
def unownedEntryX : GoogleDriveEntry :=
  { name := "X"
    mime_type := "application/pdf"
    entry_id := "X"
    parent_id := "top"
    properties_shared := []
    permissions_all := [victimOwnerPermission] }

/-- A claimed copy of `unownedEntryX` (its `CUSTOM_ORIGINAL_FILE_ID`
property names `X`). -/
def claimedCopy1 : GoogleDriveEntry :=
  { name := "X"
    mime_type := "application/pdf"
    entry_id := "C1"
    parent_id := "top"
    properties_shared := [(key_orig, "X")]
    permissions_all := [victimOwnerPermission] }

/-- A second entry also claiming to be the copy of `unownedEntryX`. -/
def claimedCopy2 : GoogleDriveEntry :=
  { name := "X"
    mime_type := "application/pdf"
    entry_id := "C2"
    parent_id := "top"
    properties_shared := [(key_orig, "X")]
    permissions_all := [victimOwnerPermission] }

theorem get_pair_copy_entry_multi_witness :
    ∃ msg, get_pair_copy_entry cfgAllOn
      { entries := [unownedEntryX, claimedCopy1, claimedCopy2], muts := 0 }
      unownedEntryX = .error msg :=
  get_pair_copy_entry_multi cfgAllOn
    { entries := [unownedEntryX, claimedCopy1, claimedCopy2], muts := 0 }
    unownedEntryX false rfl rfl (by decide)

/-- Claim C3: when the pairing query finds exactly one match whose id does
not equal the id recorded in the querying entry's own pairing property, the
resolver raises a fatal error instead of returning the found pair. -/
theorem get_pair_copy_entry_backref
    (cfg : ConfigProgram) (s : DriveState) (entry p : GoogleDriveEntry) (b : Bool)
    (hacct : cfg.account.account_type = AccountType.personal)
    (howned : entry.is_owned_by cfg.account.account_id = .ok b)
    (hq : getEntriesByProperty s (if b then key_copy else key_orig) entry.entry_id = [p])
    (hmm : entry.custom_property (if b then key_orig else key_copy) ≠ some p.entry_id) :
    ∃ msg, get_pair_copy_entry cfg s entry = .error msg := by
  unfold get_pair_copy_entry
  rw [hacct, howned]
  refine ⟨"Found pair does not have the expected property.", ?_⟩
  cases b <;> simp_all [get_pair_lookup, key_copy_not_empty, key_orig_not_empty]

theorem get_pair_copy_entry_backref_witness :
    ∃ msg, get_pair_copy_entry cfgAllOn
      { entries := [unownedEntryX, claimedCopy1], muts := 0 }
      unownedEntryX = .error msg :=
  get_pair_copy_entry_backref cfgAllOn
    { entries := [unownedEntryX, claimedCopy1], muts := 0 }
    unownedEntryX claimedCopy1 false rfl rfl (by decide) (by decide)

/-- Claim C7: reading an entry's owner returns the unique permission with
role owner and type user, and raises a fatal error whenever the permission
list contains zero such permissions or more than one. -/
theorem permission_owner_user_spec (e e2 : GoogleDriveEntry) :
    (∀ p, e.permissions_all.filter
        (fun p => p.role == PermRole.owner && p.entry_type == PermType.user) = [p] →
      e.permission_owner_user = .ok p) ∧
    ((e2.permissions_all.filter
        (fun p => p.role == PermRole.owner && p.entry_type == PermType.user)).length ≠ 1 →
      ∃ msg, e2.permission_owner_user = .error msg) := by
  constructor
  · intro p hp
    unfold GoogleDriveEntry.permission_owner_user
    rw [hp]
  · intro hlen
    unfold GoogleDriveEntry.permission_owner_user
    rcases hq : e2.permissions_all.filter
        (fun p => p.role == PermRole.owner && p.entry_type == PermType.user) with _ | ⟨a, _ | ⟨a2, tl⟩⟩
    · rw [hq]; exact ⟨_, rfl⟩
    · rw [hq] at hlen; simp at hlen
    · rw [hq]; exact ⟨_, rfl⟩

/-- An entry with two owner permissions of type user. -/
def twoOwnersEntry : GoogleDriveEntry :=
  { victimDocEntry with
    entry_id := "e2"
    permissions_all := [victimOwnerPermission,
      { victimOwnerPermission with
        entry_id := "perm-owner-2"
        user_email := some "second@example.com" }] }

theorem permission_owner_user_spec_witness :
    victimDocEntry.permission_owner_user = .ok victimOwnerPermission ∧
    ∃ msg, twoOwnersEntry.permission_owner_user = .error msg :=
  ⟨(permission_owner_user_spec victimDocEntry twoOwnersEntry).1
      victimOwnerPermission (by decide),
    (permission_owner_user_spec victimDocEntry twoOwnersEntry).2 (by decide)⟩

/-- Claim C10: the pairing resolver raises whenever the configured account
type is not personal, and consequently the CREATE_FOLDER, COPY_FILE and
MOVE_ENTRY apply paths — which all resolve pairs after passing their config
gate — raise (produce no outcome at all) under a non-personal account once
their config gate is passed; only a personal-account configuration can
carry them to an outcome. -/
theorem pair_paths_require_personal
    (cfg : ConfigProgram) (s : DriveState) (entry : GoogleDriveEntry) (freshId : String)
    (hacct : cfg.account.account_type ≠ AccountType.personal) :
    (∃ m, get_pair_copy_entry cfg s entry = .error m) ∧
    (cfg.actions.create_owned_folder_and_move_contents = true →
      ∃ m, apply_create_folder cfg s entry freshId = .error m) ∧
    (cfg.actions.create_owned_file_copy = true →
      ∃ m, apply_copy_file cfg s entry freshId = .error m) ∧
    (cfg.actions.create_owned_folder_and_move_contents = true →
      ∃ m, apply_move_entry cfg s entry = .error m) := by
  have hb : (cfg.account.account_type != AccountType.personal) = true := by
    simp [bne_iff_ne, hacct]
  refine ⟨?_, fun hflag => ?_, fun hflag => ?_, fun hflag => ?_⟩
  · unfold get_pair_copy_entry
    rw [hb]
    exact ⟨_, rfl⟩
  · unfold apply_create_folder check_create_folder
    rw [hflag]
    cases hd : entry.is_dir <;> simp [hd, hb]
  · unfold apply_copy_file check_copy_file
    rw [hflag]
    cases hd : entry.is_dir <;> simp [hd, hb]
  · unfold apply_move_entry check_move_entry
    rw [hflag, hb]
    exact ⟨_, rfl⟩

/-- The `cfgAllOn` action set under a business account. -/
def cfgBusiness : ConfigProgram :=
  { cfgAllOn with account :=
      { account_type := AccountType.business
        drive_id := "drive-1"
        account_id := "example.com"
        top_folder_id := "top" } }

theorem pair_paths_require_personal_witness :
    (∃ m, get_pair_copy_entry cfgBusiness victimDocState victimDocEntry = .error m) ∧
    (∃ m, apply_create_folder cfgBusiness victimDocState victimDocEntry "N1" = .error m) ∧
    (∃ m, apply_copy_file cfgBusiness victimDocState victimDocEntry "N1" = .error m) ∧
    (∃ m, apply_move_entry cfgBusiness victimDocState victimDocEntry = .error m) := by
  have h := pair_paths_require_personal cfgBusiness victimDocState victimDocEntry "N1"
    (by decide)
  exact ⟨h.1, h.2.1 rfl, h.2.2.1 rfl, h.2.2.2 rfl⟩

/-- Claim C4: applying a MOVE_ENTRY plan item for an entry that is unowned
and whose owned pair copy does not exist at apply time returns an outcome
classified FAILED, with a description telling the operator to check plan
ordering, and does not raise an exception.  (The hypotheses walk the source
path to that branch: config gate passed, personal account, parent fetched,
the parent's pair resolved to an owned copy folder.) -/
theorem apply_move_entry_missing_pair_failed
    (cfg : ConfigProgram) (s : DriveState) (plan : PlanReport) (fid eid : String)
    (entry entry_parent po : GoogleDriveEntry)
    (haction : plan.item_action = "move-entry")
    (heid : plan.entry_id = some eid)
    (hfind : findEntry s eid = some entry)
    (hflag : cfg.actions.create_owned_folder_and_move_contents = true)
    (hacct : cfg.account.account_type = AccountType.personal)
    (hparent : findEntry s entry.parent_id = some entry_parent)
    (hpo : get_pair_copy_entry cfg s entry_parent = .ok (some po))
    (hcopy : po.is_copy = true)
    (hdir : po.is_dir = true)
    (howned : entry.is_owned_by cfg.account.account_id = .ok false)
    (hnopair : get_pair_copy_entry cfg s entry = .ok none) :
    apply_plan cfg s plan fid =
      .ok ((PlanReportOutcomes.FAILED,
        "There is no owned copy of the file. Check the order of the plans."), s) := by
  simp only [apply_plan, heid, hfind, haction, String.reduceBEq, Bool.false_eq_true,
    if_false, beq_self_eq_true, if_true]
  simp only [apply_move_entry, check_move_entry, hflag, hacct, bne_self_eq_false,
    Bool.not_true, Bool.false_eq_true, if_false, Bool.not_false, if_true]
  rw [hparent]
  simp only [hpo, hcopy, hdir, howned, hnopair, Bool.not_true, Bool.false_eq_true, if_false]

/-- An unowned parent folder whose pair copy `pairFolderPO` exists. -/
def unownedParentP : GoogleDriveEntry :=
  { name := "P"
    mime_type := mime_type_dir
    entry_id := "P"
    parent_id := "top"
    properties_shared := [(key_copy, "PO")]
    permissions_all := [victimOwnerPermission] }

/-- The owned pair copy of `unownedParentP`. -/
def pairFolderPO : GoogleDriveEntry :=
  { name := "P"
    mime_type := mime_type_dir
    entry_id := "PO"
    parent_id := "top"
    properties_shared := [(key_orig, "P")]
    permissions_all := [ownerPermissionOf "current-user@example.com"] }

/-- An unowned file under `unownedParentP` that has no pair copy yet. -/
def orphanMoveEntry : GoogleDriveEntry :=
  { name := "A"
    mime_type := "application/pdf"
    entry_id := "A"
    parent_id := "P"
    properties_shared := []
    permissions_all := [victimOwnerPermission] }

/-- The store for the C4 witness. -/
def orphanMoveState : DriveState :=
  { entries := [unownedParentP, pairFolderPO, orphanMoveEntry], muts := 0 }

/-- A persisted MOVE_ENTRY plan row for `orphanMoveEntry`. -/
def orphanMovePlan : PlanReport :=
  { item_action := "move-entry"
    entry_id := some "A"
    permission_id := none
    begin_user_email := none
    end_user_email := none
    end_entry_name := none
    end_entry_path := none }

theorem apply_move_entry_missing_pair_failed_witness :
    apply_plan cfgAllOn orphanMoveState orphanMovePlan "N1" =
      .ok ((PlanReportOutcomes.FAILED,
        "There is no owned copy of the file. Check the order of the plans."),
        orphanMoveState) :=
  apply_move_entry_missing_pair_failed cfgAllOn orphanMoveState orphanMovePlan
    "N1" "A" orphanMoveEntry unownedParentP pairFolderPO
    rfl rfl rfl rfl rfl rfl rfl rfl rfl rfl rfl

/-- Claim C8: when applying a DELETE_PERMISSION plan item under a personal
account, if either the plan's recorded begin user email or its recorded end
user email is in the configured keep-list, the item is classified SKIPPED
with the config-prevented description and the store is left untouched (no
remote deletion).  (The keep-list field is modelled from the spec; see
`ConfigActions`.) -/
theorem apply_delete_permission_keep_list
    (cfg : ConfigProgram) (s : DriveState) (plan : PlanReport) (fid eid : String)
    (entry : GoogleDriveEntry) (permission : GoogleDrivePermission)
    (haction : plan.item_action = "delete-permission")
    (heid : plan.entry_id = some eid)
    (hfind : findEntry s eid = some entry)
    (hacct : cfg.account.account_type = AccountType.personal)
    (hperm : entry.permissions_all.find?
      (fun p => some p.entry_id == plan.permission_id) = some permission)
    (hkeep : (∃ e, plan.begin_user_email = some e ∧
        e ∈ cfg.actions.permissions_user_emails_keep) ∨
      (∃ e, plan.end_user_email = some e ∧
        e ∈ cfg.actions.permissions_user_emails_keep)) :
    apply_plan cfg s plan fid =
      .ok ((PlanReportOutcomes.SKIPPED, "Config prevented executing plan action"), s) := by
  simp only [apply_plan, heid, hfind, haction, String.reduceBEq, Bool.false_eq_true,
    if_false, beq_self_eq_true, if_true]
  simp only [apply_delete_permission, hperm, check_delete_permission, pyEnumEqStr,
    Bool.false_eq_true, if_false, hacct, bne_self_eq_false, Bool.false_eq_true, if_false]
  have hk : ((match plan.begin_user_email with
      | some e => cfg.actions.permissions_user_emails_keep.contains e
      | none => false)
    || (match plan.end_user_email with
      | some e => cfg.actions.permissions_user_emails_keep.contains e
      | none => false)) = true := by
    rcases hkeep with ⟨e, he, hc⟩ | ⟨e, he, hc⟩
    · rw [he]; simp [hc]
    · rw [he]; simp [hc]
  by_cases h1 : (permission.entry_type == PermType.anyone
      && !cfg.actions.permissions_delete_link) = true
  · rw [if_pos h1]
  · rw [if_neg h1]
    by_cases h2 : (permission.entry_type != PermType.anyone
        && !cfg.actions.permissions_delete_other_users) = true
    · rw [if_pos h2]
    · rw [if_neg h2, if_pos hk]

/-- `cfgAllOn` with a non-empty keep-list. -/
def cfgKeepList : ConfigProgram :=
  { cfgAllOn with actions :=
      { cfgAllOn.actions with permissions_user_emails_keep := ["victim@example.com"] } }

theorem apply_delete_permission_keep_list_witness :
    apply_plan cfgKeepList victimDocState ownerDeletePlan "N1" =
      .ok ((PlanReportOutcomes.SKIPPED, "Config prevented executing plan action"),
        victimDocState) :=
  apply_delete_permission_keep_list cfgKeepList victimDocState ownerDeletePlan
    "N1" "e1" victimDocEntry victimOwnerPermission
    rfl rfl rfl rfl rfl (Or.inl ⟨"victim@example.com", rfl, by decide⟩)

/-- Claim C5 (refuting theorem, evaluated at the failing input): applying a
DELETE_PERMISSION plan item whose permission id resolves to an owner
permission is NOT re-validated as fatal: `check_delete_permission` passes
(its owner test compares the role enum member against the string `owner`,
which in Python is always false — see `pyEnumEqStr`), and the apply
executor deletes the owner permission and reports SUCCESS with one remote
mutation, where the claim and the spec require a fatal error. -/
theorem delete_permission_owner_not_revalidated :
    check_delete_permission cfgAllOn.account victimOwnerPermission = .ok () ∧
    apply_plan cfgAllOn victimDocState ownerDeletePlan "unused" =
      .ok ((PlanReportOutcomes.SUCCESS, "Deleted permission."),
        { entries := [{ victimDocEntry with permissions_all := [] }], muts := 1 }) := by
  constructor
  · rfl
  · rfl

/-- Claim C6 (modelled from the spec; the current plan builder is missing
from the tree): for every name with at least one leading case-insensitive
`Copy of ` marker, the rename pass emits a RENAME_FILE item for an owned
file whose cleaned end name combines the marker repetitions with any
existing `copy (xN)` suffix into a copy-count marker; in particular
`Copy of Copy of report.pdf` yields `report.pdf copy (x2)` and
`Copy of report copy (x1).pdf` yields `report copy (x2).pdf`. -/
theorem rename_pass_copy_count :
    (∀ name : String, 0 < (copyOfSplit name.toList).1 →
      renamePassEndName true true false name = some (cleanEntryName name)) ∧
    cleanEntryName "Copy of Copy of report.pdf" = "report.pdf copy (x2)" ∧
    cleanEntryName "Copy of report copy (x1).pdf" = "report copy (x2).pdf" := by
  refine ⟨fun name h => ?_, by decide, by decide⟩
  unfold renamePassEndName
  have h2 : ¬(copyOfSplit name.data).1 = 0 := Nat.pos_iff_ne_zero.mp h
  simp [h2]

theorem rename_pass_copy_count_witness :
    renamePassEndName true true false "Copy of Copy of report.pdf" =
      some "report.pdf copy (x2)" := by
  rw [rename_pass_copy_count.1 "Copy of Copy of report.pdf" (by decide),
    rename_pass_copy_count.2.1]


/-! ## Claim C9: the entry path cache -/

/-- The walk from `current_id` up the parent links hits exactly the cached
entries `e :: rest`, in order, ending at the designated top folder. -/
def walkChainOk (c : GoogleDriveEntryCache) : String → List GoogleDriveEntry → Bool
  | _, [] => false
  | current_id, e :: rest =>
    (cacheGet c current_id == some e) &&
    (if e.entry_id == c.top_folder_id then rest.isEmpty
     else walkChainOk c e.parent_id rest)

/-- The walk from `current_id` follows the cached entries `pre` (none of
which is the top folder) and then hits an id that is missing from the
cache. -/
def walkMissOk (c : GoogleDriveEntryCache) : String → List GoogleDriveEntry → Bool
  | current_id, [] => cacheGet c current_id == none
  | current_id, e :: rest =>
    (cacheGet c current_id == some e) && (e.entry_id != c.top_folder_id) &&
    walkMissOk c e.parent_id rest

theorem pathAux_of_walkChain (c : GoogleDriveEntryCache)
    (chain : List GoogleDriveEntry) :
    ∀ current fuel (acc : List GoogleDriveEntry),
      walkChainOk c current chain = true → chain.length ≤ fuel →
      pathAux c fuel current acc = .ok (acc ++ chain) := by
  induction chain with
  | nil => intro current fuel acc h _; simp [walkChainOk] at h
  | cons e rest ih =>
    intro current fuel acc h hlen
    match fuel with
    | 0 => simp at hlen
    | f + 1 =>
      simp only [walkChainOk, Bool.and_eq_true, beq_iff_eq] at h
      obtain ⟨hget, hrest⟩ := h
      by_cases htop : e.entry_id = c.top_folder_id
      · rw [if_pos htop] at hrest
        have hnil : rest = [] := by
          cases rest with
          | nil => rfl
          | cons a b => simp at hrest
        subst hnil
        simp [pathAux, hget, htop]
      · rw [if_neg htop] at hrest
        have hstep := ih e.parent_id f (acc ++ [e]) hrest (by simp at hlen; omega)
        simp [pathAux, hget, htop, hstep]

theorem pathAux_of_walkMiss (c : GoogleDriveEntryCache)
    (pre : List GoogleDriveEntry) :
    ∀ current fuel (acc : List GoogleDriveEntry),
      walkMissOk c current pre = true → pre.length < fuel →
      pathAux c fuel current acc = .error "Could not get entry id." := by
  induction pre with
  | nil =>
    intro current fuel acc h hlen
    match fuel with
    | 0 => simp at hlen
    | f + 1 =>
      simp only [walkMissOk, beq_iff_eq] at h
      simp [pathAux, h]
  | cons e rest ih =>
    intro current fuel acc h hlen
    match fuel with
    | 0 => simp at hlen
    | f + 1 =>
      simp only [walkMissOk, Bool.and_eq_true, beq_iff_eq, bne_iff_ne] at h
      obtain ⟨⟨hget, htop⟩, hrest⟩ := h
      have hstep := ih e.parent_id f (acc ++ [e]) hrest (by simp at hlen; omega)
      simp [pathAux, hget, htop, hstep]

theorem walkChain_subset (c : GoogleDriveEntryCache) (chain : List GoogleDriveEntry) :
    ∀ current, walkChainOk c current chain = true → ∀ e ∈ chain, e ∈ c.cache := by
  induction chain with
  | nil => intro current _ e he; simp at he
  | cons a rest ih =>
    intro current h e he
    simp only [walkChainOk, Bool.and_eq_true, beq_iff_eq] at h
    obtain ⟨hget, hrest⟩ := h
    rcases List.mem_cons.mp he with rfl | he2
    · exact List.mem_of_find?_eq_some hget
    · by_cases htop : a.entry_id = c.top_folder_id
      · rw [if_pos htop] at hrest
        cases rest with
        | nil => simp at he2
        | cons x y => simp at hrest
      · rw [if_neg htop] at hrest
        exact ih a.parent_id hrest e he2

theorem walkMiss_subset (c : GoogleDriveEntryCache) (pre : List GoogleDriveEntry) :
    ∀ current, walkMissOk c current pre = true → ∀ e ∈ pre, e ∈ c.cache := by
  induction pre with
  | nil => intro current _ e he; simp at he
  | cons a rest ih =>
    intro current h e he
    simp only [walkMissOk, Bool.and_eq_true, beq_iff_eq] at h
    obtain ⟨⟨hget, _⟩, hrest⟩ := h
    rcases List.mem_cons.mp he with rfl | he2
    · exact List.mem_of_find?_eq_some hget
    · exact ih a.parent_id hrest e he2

/-- Claim C9: for an entry id whose ancestor chain up to the designated top
folder is in the cache (`walkChainOk`, with the visited ids distinct, as a
terminating walk guarantees), `path` returns the chain in root-to-entry
order; and when the entry itself or any ancestor before the top folder is
missing from the cache (`walkMissOk`), `path` raises an error. -/
theorem cache_path_spec (c : GoogleDriveEntryCache) (eid eid2 : String)
    (chain pre : List GoogleDriveEntry) :
    (walkChainOk c eid chain = true → (chain.map GoogleDriveEntry.entry_id).Nodup →
      cachePath c eid = .ok chain.reverse) ∧
    (walkMissOk c eid2 pre = true → (pre.map GoogleDriveEntry.entry_id).Nodup →
      cachePath c eid2 = .error "Could not get entry id.") := by
  constructor
  · intro hwalk hnodup
    have hsub : chain ⊆ c.cache := fun {e} he => walkChain_subset c chain eid hwalk e he
    have hlen : chain.length ≤ c.cache.length :=
      ((hnodup.of_map GoogleDriveEntry.entry_id).subperm hsub).length_le
    unfold cachePath
    rw [pathAux_of_walkChain c chain eid (c.cache.length + 1) [] hwalk (by omega)]
    simp
  · intro hwalk hnodup
    have hsub : pre ⊆ c.cache := fun {e} he => walkMiss_subset c pre eid2 hwalk e he
    have hlen : pre.length ≤ c.cache.length :=
      ((hnodup.of_map GoogleDriveEntry.entry_id).subperm hsub).length_le
    unfold cachePath
    rw [pathAux_of_walkMiss c pre eid2 (c.cache.length + 1) [] hwalk (by omega)]

/-- The top folder of the C9 witness cache. -/
def topFolderW : GoogleDriveEntry :=
  { name := "Top"
    mime_type := mime_type_dir
    entry_id := "top"
    parent_id := "root"
    properties_shared := []
    permissions_all := [] }

/-- A folder under `topFolderW`. -/
def midFolderW : GoogleDriveEntry :=
  { topFolderW with name := "Mid", entry_id := "mid", parent_id := "top" }

/-- A file under `midFolderW`. -/
def leafFileW : GoogleDriveEntry :=
  { topFolderW with
    name := "Leaf"
    mime_type := "application/pdf"
    entry_id := "leaf"
    parent_id := "mid" }

/-- The C9 witness cache. -/
def cacheW : GoogleDriveEntryCache :=
  { top_folder_id := "top", cache := [topFolderW, midFolderW, leafFileW] }

theorem cache_path_spec_witness :
    cachePath cacheW "leaf" = .ok ([leafFileW, midFolderW, topFolderW]).reverse ∧
    cachePath cacheW "missing" = .error "Could not get entry id." :=
  ⟨(cache_path_spec cacheW "leaf" "missing"
      [leafFileW, midFolderW, topFolderW] []).1 (by decide) (by decide),
    (cache_path_spec cacheW "leaf" "missing"
      [leafFileW, midFolderW, topFolderW] []).2 (by decide) (by decide)⟩


theorem find?_entry_map (g : GoogleDriveEntry → GoogleDriveEntry)
    (hg : ∀ e, (g e).entry_id = e.entry_id) (es : List GoogleDriveEntry)
    (id2 : String) :
    (es.map g).find? (fun e => e.entry_id == id2) =
      (es.find? (fun e => e.entry_id == id2)).map g := by
  induction es with
  | nil => rfl
  | cons a t ih =>
    cases h : (a.entry_id == id2) with
    | true => simp [List.find?_cons, hg a, h]
    | false => simp [List.find?_cons, hg a, h, ih]

theorem filter_prop_map (g : GoogleDriveEntry → GoogleDriveEntry)
    (hg : ∀ e, (g e).properties_shared = e.properties_shared)
    (es : List GoogleDriveEntry) (k v : String) :
    (es.map g).filter (fun e => e.custom_property k == some v) =
      (es.filter (fun e => e.custom_property k == some v)).map g := by
  have hcp : ∀ e, (g e).custom_property k = e.custom_property k := by
    intro e
    unfold GoogleDriveEntry.custom_property
    rw [hg e]
  induction es with
  | nil => rfl
  | cons a t ih =>
    cases h : (a.custom_property k == some v) with
    | true => simp [List.filter_cons, hcp a, h, ih]
    | false => simp [List.filter_cons, hcp a, h, ih]

theorem find?_setProp_self (ps : List (String × String)) (k v : String) :
    (setProp ps k v).find? (fun kv => kv.1 == k) = some (k, v) := by
  unfold setProp
  rw [List.find?_append]
  have h1 : (ps.filter (fun kv => kv.1 != k)).find? (fun kv => kv.1 == k) = none := by
    rw [List.find?_eq_none]
    intro kv hkv
    have := (List.mem_filter.mp hkv).2
    simp only [bne_iff_ne, ne_eq, decide_eq_true_eq] at this
    simp [this]
  rw [h1]
  simp

theorem find?_setProp_ne (ps : List (String × String)) (k v k2 : String)
    (h : k2 ≠ k) :
    (setProp ps k v).find? (fun kv => kv.1 == k2) =
      ps.find? (fun kv => kv.1 == k2) := by
  unfold setProp
  rw [List.find?_append]
  have h2 : (List.find? (fun kv => kv.1 == k2) [(k, v)]) = none := by
    simp [Ne.symm h]
  rw [h2]
  induction ps with
  | nil => rfl
  | cons a t ih =>
    cases ha : (a.1 == k2) with
    | true =>
      have hane : (a.1 != k) = true := by
        have ha2 : a.1 = k2 := by simpa using ha
        simp [ha2, h]
      simp [List.filter_cons, List.find?_cons, hane, ha]
    | false =>
      cases hq : (a.1 != k) with
      | true => simpa [List.filter_cons, List.find?_cons, hq, ha] using ih
      | false => simpa [List.filter_cons, List.find?_cons, hq, ha] using ih

theorem custom_property_setProp_self (e : GoogleDriveEntry) (k v : String) :
    GoogleDriveEntry.custom_property
      { e with properties_shared := setProp e.properties_shared k v } k = some v := by
  unfold GoogleDriveEntry.custom_property
  rw [find?_setProp_self]
  rfl

theorem custom_property_setProp_ne (e : GoogleDriveEntry) (k v k2 : String)
    (h : k2 ≠ k) :
    GoogleDriveEntry.custom_property
      { e with properties_shared := setProp e.properties_shared k v } k2 =
      e.custom_property k2 := by
  unfold GoogleDriveEntry.custom_property
  rw [find?_setProp_ne _ _ _ _ h]

theorem find?_filter_not {α : Type} (l : List α) (p : α → Bool) :
    (l.filter (fun x => !(p x))).find? p = none := by
  rw [List.find?_eq_none]
  intro x hx
  have := (List.mem_filter.mp hx).2
  simp only [Bool.not_eq_true'] at this
  simp [this]


def ownedFolderE : GoogleDriveEntry :=
  { name := "F"
    mime_type := mime_type_dir
    entry_id := "E"
    parent_id := "top"
    properties_shared := []
    permissions_all := [ownerPermissionOf "current-user@example.com"] }

def createOwnedPlan : PlanReport :=
  { item_action := "create-folder"
    entry_id := some "E"
    permission_id := none
    begin_user_email := none
    end_user_email := none
    end_entry_name := none
    end_entry_path := none }

def ownedCreateState : DriveState := { entries := [ownedFolderE], muts := 0 }

def ownedCreateState1 : DriveState :=
  { entries :=
      [{ ownedFolderE with properties_shared := [(key_copy, "N1")] },
        { name := "F"
          mime_type := mime_type_dir
          entry_id := "N1"
          parent_id := "top"
          properties_shared := [(key_orig, "E")]
          permissions_all := [ownerPermissionOf "current-user@example.com"] }]
    muts := 2 }

def ownedCreateState2 : DriveState :=
  { entries :=
      [{ ownedFolderE with properties_shared := [(key_copy, "N2")] },
        { name := "F"
          mime_type := mime_type_dir
          entry_id := "N1"
          parent_id := "top"
          properties_shared := [(key_orig, "E")]
          permissions_all := [ownerPermissionOf "current-user@example.com"] },
        { name := "F"
          mime_type := mime_type_dir
          entry_id := "N2"
          parent_id := "top"
          properties_shared := [(key_orig, "E")]
          permissions_all := [ownerPermissionOf "current-user@example.com"] }]
    muts := 4 }

/-- Claim C1 (counterexample): a CREATE_FOLDER plan item for a folder that
IS owned by the configured account succeeds on the first pass AND on the
second pass, performing two further remote mutation calls: for an owned
entry the pair check queries `CUSTOM_COPY_FILE_ID = entry id` (looking for
an original of which the entry is the copy), but creating the folder
records the pairing under the opposite orientation, so the re-check never
sees the created folder.  The claim as stated — every item of every
persisted plan yields SUCCESS then SKIPPED with no second-pass mutations —
is therefore false on the code. -/
theorem apply_create_folder_owned_twice_success :
    apply_plan cfgAllOn ownedCreateState createOwnedPlan "N1" =
      .ok ((PlanReportOutcomes.SUCCESS, "Created new folder."), ownedCreateState1) ∧
    apply_plan cfgAllOn ownedCreateState1 createOwnedPlan "N2" =
      .ok ((PlanReportOutcomes.SUCCESS, "Created new folder."), ownedCreateState2) ∧
    ownedCreateState2.muts = ownedCreateState1.muts + 2 := by
  refine ⟨rfl, rfl, rfl⟩


theorem check_create_folder_ok (account : ConfigAccount) (entry : GoogleDriveEntry)
    (h : check_create_folder account entry = .ok ()) :
    entry.is_dir = true ∧ account.account_type = AccountType.personal := by
  unfold check_create_folder at h
  split at h
  · exact absurd h (by simp)
  · split at h
    · exact absurd h (by simp)
    · next h1 h2 =>
      refine ⟨by simpa using h1, ?_⟩
      simpa [bne_iff_ne] using h2

theorem check_copy_file_ok (account : ConfigAccount) (entry : GoogleDriveEntry)
    (h : check_copy_file account entry = .ok ()) :
    entry.is_dir = false ∧ account.account_type = AccountType.personal := by
  unfold check_copy_file at h
  split at h
  · exact absurd h (by simp)
  · split at h
    · exact absurd h (by simp)
    · next h1 h2 =>
      refine ⟨by simpa using h1, ?_⟩
      simpa [bne_iff_ne] using h2

theorem check_rename_file_ok (account : ConfigAccount) (entry : GoogleDriveEntry)
    (h : check_rename_file account entry = .ok ()) :
    entry.is_dir = false ∧ account.account_type = AccountType.business := by
  unfold check_rename_file at h
  split at h
  · exact absurd h (by simp)
  · split at h
    · exact absurd h (by simp)
    · next h1 h2 =>
      refine ⟨by simpa using h1, ?_⟩
      simpa [bne_iff_ne] using h2

theorem check_move_entry_ok (account : ConfigAccount)
    (h : check_move_entry account = .ok ()) :
    account.account_type = AccountType.personal := by
  unfold check_move_entry at h
  split at h
  · exact absurd h (by simp)
  · next h1 => simpa [bne_iff_ne] using h1



theorem get_pair_lookup_inv (s : DriveState) (entry : GoogleDriveEntry)
    (pk qk : String) (r : Option GoogleDriveEntry)
    (h : get_pair_lookup s entry pk qk = .ok r) :
    pk.isEmpty = true ∧ r = none ∨
    ((r = none ∧ getEntriesByProperty s pk entry.entry_id = []) ∨
      (∃ p, r = some p ∧ getEntriesByProperty s pk entry.entry_id = [p] ∧
        (entry.custom_property qk == some p.entry_id) = true)) := by
  unfold get_pair_lookup at h
  split at h
  · next hempty => exact Or.inl ⟨hempty, by simpa using h.symm⟩
  · refine Or.inr ?_
    split at h
    · next hq => exact Or.inl ⟨by simpa using h.symm, hq⟩
    · next p hq =>
      split at h
      · next hback => exact Or.inr ⟨p, by simpa using h.symm, hq, hback⟩
      · exact absurd h (by simp)
    · exact absurd h (by simp)

theorem get_pair_inv (cfg : ConfigProgram) (s : DriveState)
    (entry : GoogleDriveEntry) (r : Option GoogleDriveEntry)
    (h : get_pair_copy_entry cfg s entry = .ok r) :
    cfg.account.account_type = AccountType.personal ∧
    ∃ b, entry.is_owned_by cfg.account.account_id = .ok b ∧
      ((r = none ∧
          getEntriesByProperty s (if b then key_copy else key_orig) entry.entry_id = []) ∨
        (∃ p, r = some p ∧
          getEntriesByProperty s (if b then key_copy else key_orig) entry.entry_id = [p] ∧
          (entry.custom_property (if b then key_orig else key_copy)
            == some p.entry_id) = true)) := by
  unfold get_pair_copy_entry at h
  split at h
  · exact absurd h (by simp)
  · next hacct =>
    have hacct2 : cfg.account.account_type = AccountType.personal := by
      simpa [bne_iff_ne] using hacct
    refine ⟨hacct2, ?_⟩
    split at h
    · exact absurd h (by simp)
    · next b howned =>
      refine ⟨b, howned, ?_⟩
      cases b with
      | false =>
        rw [if_neg (by simp)] at h
        simp only [Bool.false_eq_true, if_false]
        rcases get_pair_lookup_inv _ _ _ _ _ h with ⟨hempty, _⟩ | hrest
        · exact absurd hempty (by simp [key_orig_not_empty])
        · exact hrest
      | true =>
        rw [if_pos rfl] at h
        simp only [if_true]
        rcases get_pair_lookup_inv _ _ _ _ _ h with ⟨hempty, _⟩ | hrest
        · exact absurd hempty (by simp [key_copy_not_empty])
        · exact hrest

theorem get_pair_lookup_of_single (s : DriveState) (entry p : GoogleDriveEntry)
    (pk qk : String) (hpk : pk.isEmpty = false)
    (hq : getEntriesByProperty s pk entry.entry_id = [p])
    (hback : (entry.custom_property qk == some p.entry_id) = true) :
    get_pair_lookup s entry pk qk = .ok (some p) := by
  unfold get_pair_lookup
  rw [if_neg (by simp [hpk]), hq]
  simp [hback]

theorem get_pair_lookup_of_nil (s : DriveState) (entry : GoogleDriveEntry)
    (pk qk : String)
    (hq : getEntriesByProperty s pk entry.entry_id = []) :
    get_pair_lookup s entry pk qk = .ok none := by
  unfold get_pair_lookup
  rw [hq]
  split <;> rfl


theorem is_owned_by_congr (e e2 : GoogleDriveEntry) (email : String)
    (hperms : e2.permissions_all = e.permissions_all) :
    e2.is_owned_by email = e.is_owned_by email := by
  unfold GoogleDriveEntry.is_owned_by GoogleDriveEntry.permission_owner_user
  rw [hperms]

theorem custom_property_congr (e e2 : GoogleDriveEntry) (k : String)
    (hprops : e2.properties_shared = e.properties_shared) :
    e2.custom_property k = e.custom_property k := by
  unfold GoogleDriveEntry.custom_property
  rw [hprops]

/-- After `create_folder_action` / `copy_file_action` on an unowned entry
whose pair query was empty, resolving the pair of the updated original
finds exactly the new entry. -/
theorem get_pair_after_record (cfg : ConfigProgram) (s : DriveState)
    (entry newE : GoogleDriveEntry) (fid : String) (m : Nat)
    (hacct : cfg.account.account_type = AccountType.personal)
    (hunowned : entry.is_owned_by cfg.account.account_id = .ok false)
    (hq : getEntriesByProperty s key_orig entry.entry_id = [])
    (hmem : entry ∈ s.entries)
    (hid : newE.entry_id = fid)
    (hprops : newE.properties_shared = [(key_orig, entry.entry_id)]) :
    get_pair_copy_entry cfg
      { entries := updateEntries s.entries entry.entry_id
          (fun _ => { entry with
            properties_shared := setProp entry.properties_shared key_copy fid }) ++ [newE]
        muts := m }
      { entry with
        properties_shared := setProp entry.properties_shared key_copy fid } =
      .ok (some newE) := by
  unfold get_pair_copy_entry
  rw [if_neg (by simp [hacct])]
  have howned2 : ({ entry with
      properties_shared := setProp entry.properties_shared key_copy fid
      : GoogleDriveEntry }).is_owned_by cfg.account.account_id = .ok false :=
    (is_owned_by_congr entry _ cfg.account.account_id rfl).trans hunowned
  rw [howned2]
  simp only [Bool.false_eq_true, if_false]
  apply get_pair_lookup_of_single _ _ _ _ _ key_orig_not_empty
  · show getEntriesByProperty _ key_orig entry.entry_id = [newE]
    unfold getEntriesByProperty
    show List.filter _ (updateEntries s.entries entry.entry_id _ ++ [newE]) = [newE]
    rw [List.filter_append]
    have hleft : List.filter
        (fun e => e.custom_property key_orig == some entry.entry_id)
        (updateEntries s.entries entry.entry_id
          (fun _ => { entry with
            properties_shared := setProp entry.properties_shared key_copy fid })) = [] := by
      rw [List.filter_eq_nil_iff]
      intro x hx
      rcases List.mem_map.mp hx with ⟨e, he, rfl⟩
      have hentry : ¬(entry.custom_property key_orig == some entry.entry_id) = true :=
        List.filter_eq_nil_iff.mp hq entry hmem
      by_cases hcase : (e.entry_id == entry.entry_id) = true
      · rw [if_pos hcase]
        rw [show ({ entry with
            properties_shared := setProp entry.properties_shared key_copy fid
            : GoogleDriveEntry }).custom_property key_orig
          = entry.custom_property key_orig from
          custom_property_setProp_ne entry key_copy fid key_orig (by decide)]
        exact hentry
      · rw [if_neg hcase]
        exact List.filter_eq_nil_iff.mp hq e he
    rw [hleft]
    have hnew : (newE.custom_property key_orig == some entry.entry_id) = true := by
      unfold GoogleDriveEntry.custom_property
      rw [hprops]
      simp
    simp [List.filter, hnew]
  · rw [show ({ entry with
        properties_shared := setProp entry.properties_shared key_copy fid
        : GoogleDriveEntry }).custom_property key_copy = some fid from
      custom_property_setProp_self entry key_copy fid]
    simp [hid]

/-- Moving an entry does not change any pairing query: resolving the pair
of an entry whose id, properties and permissions are unchanged gives the
same result, with the found pair's parent updated when it was the moved
entry. -/
theorem get_pair_lookup_move (s : DriveState) (q q2 : GoogleDriveEntry)
    (mid pid pk qk : String) (r : Option GoogleDriveEntry)
    (hid : q2.entry_id = q.entry_id)
    (hprops : q2.properties_shared = q.properties_shared)
    (h : get_pair_lookup s q pk qk = .ok r) :
    get_pair_lookup (move_entry_action s mid pid) q2 pk qk =
      .ok (r.map (fun e => if e.entry_id == mid then { e with parent_id := pid } else e)) := by
  have hgid : ∀ e : GoogleDriveEntry,
      ((if e.entry_id == mid then { e with parent_id := pid } else e :
        GoogleDriveEntry)).entry_id = e.entry_id := by
    intro e; split <;> rfl
  have hgprops : ∀ e : GoogleDriveEntry,
      ((if e.entry_id == mid then { e with parent_id := pid } else e :
        GoogleDriveEntry)).properties_shared = e.properties_shared := by
    intro e; split <;> rfl
  have hqmap : getEntriesByProperty (move_entry_action s mid pid) pk q2.entry_id =
      (getEntriesByProperty s pk q.entry_id).map
        (fun e => if e.entry_id == mid then { e with parent_id := pid } else e) := by
    unfold getEntriesByProperty move_entry_action updateEntries
    rw [hid]
    exact filter_prop_map _ hgprops s.entries pk q.entry_id
  unfold get_pair_lookup at h
  split at h
  · next hempty =>
    have hr : r = none := by simpa using h.symm
    rw [hr]
    unfold get_pair_lookup
    rw [if_pos hempty]
    rfl
  · next hempty =>
    have hpk : pk.isEmpty = false := by simpa using hempty
    split at h
    · next hq0 =>
      have hr : r = none := by simpa using h.symm
      rw [hr]
      apply get_pair_lookup_of_nil
      rw [hqmap, hq0]
      rfl
    · next p hq1 =>
      split at h
      · next hback =>
        have hr : r = some p := by simpa using h.symm
        rw [hr]
        apply get_pair_lookup_of_single _ _ _ _ _ hpk
        · rw [hqmap, hq1]
          rfl
        · rw [show q2.custom_property qk = q.custom_property qk from
            custom_property_congr q q2 qk hprops, hgid p]
          exact hback
      · exact absurd h (by simp)
    · exact absurd h (by simp)

theorem get_pair_move_stable (cfg : ConfigProgram) (s : DriveState)
    (q q2 : GoogleDriveEntry) (mid pid : String) (r : Option GoogleDriveEntry)
    (hid : q2.entry_id = q.entry_id)
    (hprops : q2.properties_shared = q.properties_shared)
    (hperms : q2.permissions_all = q.permissions_all)
    (h : get_pair_copy_entry cfg s q = .ok r) :
    get_pair_copy_entry cfg (move_entry_action s mid pid) q2 =
      .ok (r.map (fun e => if e.entry_id == mid then { e with parent_id := pid } else e)) := by
  unfold get_pair_copy_entry at h ⊢
  split at h
  · exact absurd h (by simp)
  · next hacct =>
    rw [if_neg hacct]
    rw [is_owned_by_congr q q2 _ hperms]
    rcases howned : q.is_owned_by cfg.account.account_id with msg | b <;>
      rw [howned] at h
    · exact absurd h (by simp)
    · cases b with
      | false =>
        simp only [Bool.false_eq_true, if_false] at h ⊢
        exact get_pair_lookup_move s q q2 mid pid key_orig key_copy r hid hprops h
      | true =>
        simp only [if_true] at h ⊢
        exact get_pair_lookup_move s q q2 mid pid key_copy key_orig r hid hprops h


theorem is_dir_congr (e e2 : GoogleDriveEntry)
    (hmime : e2.mime_type = e.mime_type) : e2.is_dir = e.is_dir := by
  unfold GoogleDriveEntry.is_dir
  rw [hmime]

theorem findEntry_update_apply (s : DriveState) (entry : GoogleDriveEntry)
    (f : GoogleDriveEntry → GoogleDriveEntry) (m : Nat)
    (hfind : findEntry s entry.entry_id = some entry)
    (hf : ∀ e, (f e).entry_id = e.entry_id) :
    findEntry { entries := updateEntries s.entries entry.entry_id f, muts := m }
      entry.entry_id = some (f entry) := by
  unfold findEntry updateEntries
  have hg : ∀ e : GoogleDriveEntry,
      ((if e.entry_id == entry.entry_id then f e else e :
        GoogleDriveEntry)).entry_id = e.entry_id := by
    intro e
    split
    · rw [hf e]
    · rfl
  rw [find?_entry_map _ hg s.entries entry.entry_id]
  unfold findEntry at hfind
  rw [hfind]
  simp

/-- Second pass of a RENAME_FILE item after a successful first pass:
the current name already equals the target, so the executor skips. -/
theorem second_pass_rename (cfg : ConfigProgram) (s : DriveState)
    (plan : PlanReport) (entry : GoogleDriveEntry) (fid2 d : String)
    (s₁ : DriveState)
    (haction : plan.item_action = "rename-file")
    (heid : plan.entry_id = some entry.entry_id)
    (hfind : findEntry s entry.entry_id = some entry)
    (h : apply_rename_file cfg s plan entry =
      .ok ((PlanReportOutcomes.SUCCESS, d), s₁)) :
    apply_plan cfg s₁ plan fid2 =
      .ok ((PlanReportOutcomes.SKIPPED, "File name is already as expected."), s₁) := by
  unfold apply_rename_file at h
  split at h
  · exact absurd h (by simp)
  · next hflag =>
    have hflag2 : cfg.actions.entry_name_delete_prefix_copy_of = true := by
      simpa using hflag
    split at h
    · exact absurd h (by simp)
    · next hcheck =>
      obtain ⟨hdir, hbiz⟩ := check_rename_file_ok _ _ hcheck
      split at h
      · exact absurd h (by simp)
      · next hne =>
        split at h
        · exact absurd h (by simp)
        · next nn hnn =>
          split at h
          · exact absurd h (by simp)
          · next hnem =>
            have hs : s₁ = rename_entry_action s entry.entry_id nn := by
              have := h
              simp only [Except.ok.injEq, Prod.mk.injEq] at this
              exact this.2.symm
            subst hs
            simp only [apply_plan, heid, haction, String.reduceBEq,
              Bool.false_eq_true, if_false, beq_self_eq_true, if_true]
            have hfind2 : findEntry (rename_entry_action s entry.entry_id nn)
                entry.entry_id = some { entry with name := nn } := by
              unfold rename_entry_action
              exact findEntry_update_apply s entry _ _ hfind (fun e => rfl)
            have hdir2 : ({ entry with name := nn } : GoogleDriveEntry).is_dir = false :=
              (is_dir_congr entry { entry with name := nn } rfl).trans hdir
            have hcheck2 : check_rename_file cfg.account
                { entry with name := nn } = .ok () := by
              unfold check_rename_file
              rw [hdir2]
              simp [hbiz]
            simp only [hfind2]
            unfold apply_rename_file
            rw [if_neg (by simp [hflag2])]
            simp only [hcheck2]
            rw [if_pos (by rw [hnn]; simp)]



/-- Second pass of a DELETE_PERMISSION item after a successful first pass:
the permission is gone, so the executor skips. -/
theorem second_pass_delete (cfg : ConfigProgram) (s : DriveState)
    (plan : PlanReport) (entry : GoogleDriveEntry) (fid2 d : String)
    (s₁ : DriveState)
    (haction : plan.item_action = "delete-permission")
    (heid : plan.entry_id = some entry.entry_id)
    (hfind : findEntry s entry.entry_id = some entry)
    (h : apply_delete_permission cfg s plan entry =
      .ok ((PlanReportOutcomes.SUCCESS, d), s₁)) :
    apply_plan cfg s₁ plan fid2 =
      .ok ((PlanReportOutcomes.SKIPPED, "The permission does not exist."), s₁) := by
  unfold apply_delete_permission at h
  split at h
  · exact absurd h (by simp)
  · next permission hperm =>
    split at h
    · exact absurd h (by simp)
    · split at h
      · exact absurd h (by simp)
      · split at h
        · exact absurd h (by simp)
        · set kb := ((match plan.begin_user_email with
              | some e => cfg.actions.permissions_user_emails_keep.contains e
              | none => false)
            || (match plan.end_user_email with
              | some e => cfg.actions.permissions_user_emails_keep.contains e
              | none => false)) with hkb
          split at h
          · exact absurd h (by simp)
          · split at h
            · exact absurd h (by simp)
            · rename_i eid heid2
              have heq : eid = entry.entry_id := by
                rw [heid] at heid2
                simpa using heid2.symm
              subst heq
              have hs : s₁ = delete_permission_action s entry.entry_id plan.permission_id := by
                simp only [Except.ok.injEq, Prod.mk.injEq] at h
                exact h.2.symm
              subst hs
              simp only [apply_plan, heid, haction, String.reduceBEq,
                Bool.false_eq_true, if_false, beq_self_eq_true, if_true]
              have hfind2 : findEntry (delete_permission_action s entry.entry_id plan.permission_id) entry.entry_id = some { entry with permissions_all := entry.permissions_all.filter (fun p => !(some p.entry_id == plan.permission_id)) } := by
                unfold delete_permission_action
                exact findEntry_update_apply s entry _ _ hfind (fun e => rfl)
              simp only [hfind2]
              unfold apply_delete_permission
              rw [show List.find? (fun p => some p.entry_id == plan.permission_id) (entry.permissions_all.filter (fun p => !(some p.entry_id == plan.permission_id))) = none from find?_filter_not entry.permissions_all (fun p => some p.entry_id == plan.permission_id)]



theorem findEntry_create (s : DriveState) (entry E2 newE : GoogleDriveEntry)
    (m : Nat)
    (hfind : findEntry s entry.entry_id = some entry)
    (hend : E2.entry_id = entry.entry_id) :
    findEntry
      { entries := updateEntries s.entries entry.entry_id (fun _ => E2) ++ [newE],
        muts := m } entry.entry_id = some E2 := by
  unfold findEntry
  show List.find? _ (updateEntries s.entries entry.entry_id (fun _ => E2) ++ [newE]) = some E2
  rw [List.find?_append]
  have hg : ∀ e : GoogleDriveEntry,
      ((if e.entry_id == entry.entry_id then E2 else e : GoogleDriveEntry)).entry_id
        = e.entry_id := by
    intro e
    split
    · next hc =>
        have hc2 : e.entry_id = entry.entry_id := by simpa using hc
        rw [hend, hc2]
    · rfl
  unfold updateEntries
  rw [find?_entry_map _ hg s.entries entry.entry_id]
  unfold findEntry at hfind
  rw [hfind]
  simp

/-- Second pass of a CREATE_FOLDER item, for an entry not owned by the
configured account, after a successful first pass: the pair now resolves to
the created folder, so the executor skips. -/
theorem second_pass_create (cfg : ConfigProgram) (s : DriveState)
    (plan : PlanReport) (entry : GoogleDriveEntry) (fid fid2 d : String)
    (s₁ : DriveState)
    (haction : plan.item_action = "create-folder")
    (heid : plan.entry_id = some entry.entry_id)
    (hfind : findEntry s entry.entry_id = some entry)
    (hunowned : entry.is_owned_by cfg.account.account_id = .ok false)
    (h : apply_create_folder cfg s entry fid =
      .ok ((PlanReportOutcomes.SUCCESS, d), s₁)) :
    apply_plan cfg s₁ plan fid2 =
      .ok ((PlanReportOutcomes.SKIPPED, "Folder already exists."), s₁) := by
  unfold apply_create_folder at h
  split at h
  · exact absurd h (by simp)
  · next hflag =>
    have hflag2 : cfg.actions.create_owned_folder_and_move_contents = true := by
      simpa using hflag
    split at h
    · exact absurd h (by simp)
    · next hcheck =>
      obtain ⟨hdir, hacct⟩ := check_create_folder_ok _ _ hcheck
      split at h
      · exact absurd h (by simp)
      · exact absurd h (by simp)
      · next hpair =>
        have hs : s₁ = (create_folder_action cfg s entry fid).1 := by
          simp only [Except.ok.injEq, Prod.mk.injEq] at h
          exact h.2.symm
        obtain ⟨-, b, howned2, hdisj⟩ := get_pair_inv cfg s entry none hpair
        have hb : b = false := by
          rw [hunowned] at howned2
          simpa using howned2.symm
        subst hb
        have hq : getEntriesByProperty s key_orig entry.entry_id = [] := by
          rcases hdisj with ⟨-, hq0⟩ | ⟨p, hp, -⟩
          · simpa using hq0
          · exact absurd hp (by simp)
        subst hs
        simp only [apply_plan, heid, haction, String.reduceBEq,
          Bool.false_eq_true, if_false, beq_self_eq_true, if_true]
        unfold create_folder_action
        have hfind2 := findEntry_create s entry
          { entry with properties_shared := setProp entry.properties_shared key_copy fid }
          { name := entry.name
            mime_type := mime_type_dir
            entry_id := fid
            parent_id := entry.parent_id
            properties_shared := [(key_orig, entry.entry_id)]
            permissions_all := [ownerPermissionOf cfg.account.account_id] }
          (s.muts + 2) hfind rfl
        simp only [hfind2]
        unfold apply_create_folder
        rw [if_neg (by simp [hflag2])]
        have hdir2 : ({ entry with
            properties_shared := setProp entry.properties_shared key_copy fid }
            : GoogleDriveEntry).is_dir = true :=
          (is_dir_congr entry _ rfl).trans hdir
        have hcheck2 : check_create_folder cfg.account
            { entry with properties_shared := setProp entry.properties_shared key_copy fid }
            = .ok () := by
          unfold check_create_folder
          rw [hdir2]
          simp [hacct]
        simp only [hcheck2]
        have hpair2 := get_pair_after_record cfg s entry
          { name := entry.name
            mime_type := mime_type_dir
            entry_id := fid
            parent_id := entry.parent_id
            properties_shared := [(key_orig, entry.entry_id)]
            permissions_all := [ownerPermissionOf cfg.account.account_id] }
          fid (s.muts + 2) hacct hunowned hq
          (List.mem_of_find?_eq_some hfind) rfl rfl
        simp only [hpair2]



/-- Second pass of a COPY_FILE item, for an entry not owned by the
configured account, after a successful first pass: the pair now resolves to
the created copy, so the executor skips. -/
theorem second_pass_copy (cfg : ConfigProgram) (s : DriveState)
    (plan : PlanReport) (entry : GoogleDriveEntry) (fid fid2 d : String)
    (s₁ : DriveState)
    (haction : plan.item_action = "copy-file")
    (heid : plan.entry_id = some entry.entry_id)
    (hfind : findEntry s entry.entry_id = some entry)
    (hunowned : entry.is_owned_by cfg.account.account_id = .ok false)
    (h : apply_copy_file cfg s entry fid =
      .ok ((PlanReportOutcomes.SUCCESS, d), s₁)) :
    apply_plan cfg s₁ plan fid2 =
      .ok ((PlanReportOutcomes.SKIPPED, "File already exists."), s₁) := by
  unfold apply_copy_file at h
  split at h
  · exact absurd h (by simp)
  · next hflag =>
    have hflag2 : cfg.actions.create_owned_file_copy = true := by
      simpa using hflag
    split at h
    · exact absurd h (by simp)
    · next hcheck =>
      obtain ⟨hdir, hacct⟩ := check_copy_file_ok _ _ hcheck
      split at h
      · exact absurd h (by simp)
      · exact absurd h (by simp)
      · next hpair =>
        have hs : s₁ = (copy_file_action cfg s entry fid).1 := by
          simp only [Except.ok.injEq, Prod.mk.injEq] at h
          exact h.2.symm
        obtain ⟨-, b, howned2, hdisj⟩ := get_pair_inv cfg s entry none hpair
        have hb : b = false := by
          rw [hunowned] at howned2
          simpa using howned2.symm
        subst hb
        have hq : getEntriesByProperty s key_orig entry.entry_id = [] := by
          rcases hdisj with ⟨-, hq0⟩ | ⟨p, hp, -⟩
          · simpa using hq0
          · exact absurd hp (by simp)
        subst hs
        simp only [apply_plan, heid, haction, String.reduceBEq,
          Bool.false_eq_true, if_false, beq_self_eq_true, if_true]
        unfold copy_file_action
        have hfind2 := findEntry_create s entry
          { entry with properties_shared := setProp entry.properties_shared key_copy fid }
          { name := entry.name
            mime_type := entry.mime_type
            entry_id := fid
            parent_id := entry.parent_id
            properties_shared := [(key_orig, entry.entry_id)]
            permissions_all := [ownerPermissionOf cfg.account.account_id] }
          (s.muts + 2) hfind rfl
        simp only [hfind2]
        unfold apply_copy_file
        rw [if_neg (by simp [hflag2])]
        have hdir2 : ({ entry with
            properties_shared := setProp entry.properties_shared key_copy fid }
            : GoogleDriveEntry).is_dir = false :=
          (is_dir_congr entry _ rfl).trans hdir
        have hcheck2 : check_copy_file cfg.account
            { entry with properties_shared := setProp entry.properties_shared key_copy fid }
            = .ok () := by
          unfold check_copy_file
          rw [hdir2]
          simp [hacct]
        simp only [hcheck2]
        have hpair2 := get_pair_after_record cfg s entry
          { name := entry.name
            mime_type := entry.mime_type
            entry_id := fid
            parent_id := entry.parent_id
            properties_shared := [(key_orig, entry.entry_id)]
            permissions_all := [ownerPermissionOf cfg.account.account_id] }
          fid (s.muts + 2) hacct hunowned hq
          (List.mem_of_find?_eq_some hfind) rfl rfl
        simp only [hpair2]



theorem is_copy_congr (e e2 : GoogleDriveEntry)
    (hprops : e2.properties_shared = e.properties_shared) :
    e2.is_copy = e.is_copy := by
  unfold GoogleDriveEntry.is_copy
  rw [custom_property_congr e e2 key_orig hprops]

theorem findEntry_move (s : DriveState) (mid pid id2 : String) :
    findEntry (move_entry_action s mid pid) id2 =
      (findEntry s id2).map
        (fun e => if e.entry_id == mid then { e with parent_id := pid } else e) := by
  unfold findEntry move_entry_action updateEntries
  apply find?_entry_map
  intro e
  split <;> rfl

/-- Second pass of a MOVE_ENTRY item, for an unowned entry whose resolved
owned copy is a distinct entry, after a successful first pass: the copy is
already under the resolved target parent, so the executor skips. -/
theorem second_pass_move (cfg : ConfigProgram) (s : DriveState)
    (plan : PlanReport) (entry : GoogleDriveEntry) (fid2 d : String)
    (s₁ : DriveState)
    (haction : plan.item_action = "move-entry")
    (heid : plan.entry_id = some entry.entry_id)
    (hfind : findEntry s entry.entry_id = some entry)
    (hunowned : entry.is_owned_by cfg.account.account_id = .ok false)
    (hsafe : ∀ c ∈ getEntriesByProperty s key_orig entry.entry_id,
      c.entry_id ≠ entry.entry_id)
    (h : apply_move_entry cfg s entry = .ok ((PlanReportOutcomes.SUCCESS, d), s₁)) :
    apply_plan cfg s₁ plan fid2 =
      .ok ((PlanReportOutcomes.SKIPPED,
        "The file is already in the expected folder."), s₁) := by
  unfold apply_move_entry at h
  split at h
  · exact absurd h (by simp)
  · next hflag =>
    have hflag2 : cfg.actions.create_owned_folder_and_move_contents = true := by
      simpa using hflag
    split at h
    · exact absurd h (by simp)
    · next hcheck =>
      have hacct := check_move_entry_ok _ hcheck
      split at h
      · exact absurd h (by simp)
      · next P hP =>
        split at h
        · exact absurd h (by simp)
        · exact absurd h (by simp)
        · next PO hPO =>
          split at h
          · exact absurd h (by simp)
          · next hcopy0 =>
            have hcopy : PO.is_copy = true := by
              rcases hb : PO.is_copy with _ | _
              · exact absurd (by simp [hb]) hcopy0
              · rfl
            split at h
            · exact absurd h (by simp)
            · next hdir0 =>
              have hdir : PO.is_dir = true := by
                rcases hb : PO.is_dir with _ | _
                · exact absurd (by simp [hb]) hdir0
                · rfl
              split at h
              · exact absurd h (by simp)
              · next owned howned2 =>
                have hof : owned = false := by
                  rw [hunowned] at howned2
                  simpa using howned2.symm
                subst hof
                simp only [Bool.false_eq_true, if_false] at h
                split at h
                · exact absurd h (by simp)
                · exact absurd h (by simp)
                · next C hC =>
                  split at h
                  · exact absurd h (by simp)
                  · next hne =>
                    have hs : s₁ = move_entry_action s C.entry_id PO.entry_id := by
                      simp only [Except.ok.injEq, Prod.mk.injEq] at h
                      exact h.2.symm
                    obtain ⟨-, b2, howned3, hdisj⟩ := get_pair_inv cfg s entry (some C) hC
                    have hb2 : b2 = false := by
                      rw [hunowned] at howned3
                      simpa using howned3.symm
                    subst hb2
                    have hqE : getEntriesByProperty s key_orig entry.entry_id = [C] := by
                      rcases hdisj with ⟨hnone, -⟩ | ⟨p, hp, hq1, -⟩
                      · exact absurd hnone (by simp)
                      · have hpC : C = p := by simpa using hp
                        subst hpC
                        simpa using hq1
                    have hCneq : C.entry_id ≠ entry.entry_id :=
                      hsafe C (by rw [hqE]; exact List.mem_singleton_self C)
                    subst hs
                    simp only [apply_plan, heid, haction, String.reduceBEq,
                      Bool.false_eq_true, if_false, beq_self_eq_true, if_true]
                    have hfind3 : findEntry (move_entry_action s C.entry_id PO.entry_id)
                        entry.entry_id = some entry := by
                      rw [findEntry_move, hfind]
                      simp [Ne.symm hCneq]
                    simp only [hfind3]
                    unfold apply_move_entry
                    rw [if_neg (by simp [hflag2])]
                    have hcheck2 : check_move_entry cfg.account = .ok () := by
                      unfold check_move_entry
                      simp [hacct]
                    simp only [hcheck2]
                    have hfind4 : findEntry (move_entry_action s C.entry_id PO.entry_id)
                        entry.parent_id = some (if P.entry_id == C.entry_id then
                          { P with parent_id := PO.entry_id } else P) := by
                      rw [findEntry_move, hP]
                      rfl
                    simp only [hfind4]
                    have hgid : ∀ e : GoogleDriveEntry,
                        ((if e.entry_id == C.entry_id then
                          { e with parent_id := PO.entry_id } else e :
                          GoogleDriveEntry)).entry_id = e.entry_id := by
                      intro e; split <;> rfl
                    have hgprops : ∀ e : GoogleDriveEntry,
                        ((if e.entry_id == C.entry_id then
                          { e with parent_id := PO.entry_id } else e :
                          GoogleDriveEntry)).properties_shared = e.properties_shared := by
                      intro e; split <;> rfl
                    have hgperms : ∀ e : GoogleDriveEntry,
                        ((if e.entry_id == C.entry_id then
                          { e with parent_id := PO.entry_id } else e :
                          GoogleDriveEntry)).permissions_all = e.permissions_all := by
                      intro e; split <;> rfl
                    have hgmime : ∀ e : GoogleDriveEntry,
                        ((if e.entry_id == C.entry_id then
                          { e with parent_id := PO.entry_id } else e :
                          GoogleDriveEntry)).mime_type = e.mime_type := by
                      intro e; split <;> rfl
                    have hpair3 : get_pair_copy_entry cfg
                        (move_entry_action s C.entry_id PO.entry_id)
                        (if P.entry_id == C.entry_id then
                          { P with parent_id := PO.entry_id } else P) =
                        .ok (some (if PO.entry_id == C.entry_id then
                          { PO with parent_id := PO.entry_id } else PO)) :=
                      get_pair_move_stable cfg s P
                        (if P.entry_id == C.entry_id then
                          { P with parent_id := PO.entry_id } else P)
                        C.entry_id PO.entry_id (some PO)
                        (hgid P) (hgprops P) (hgperms P) hPO
                    simp only [hpair3]
                    rw [if_neg (by
                      rw [show ((if PO.entry_id == C.entry_id then
                        { PO with parent_id := PO.entry_id } else PO :
                        GoogleDriveEntry)).is_copy = PO.is_copy from
                        is_copy_congr PO _ (hgprops PO)]
                      simp [hcopy])]
                    rw [if_neg (by
                      rw [show ((if PO.entry_id == C.entry_id then
                        { PO with parent_id := PO.entry_id } else PO :
                        GoogleDriveEntry)).is_dir = PO.is_dir from
                        is_dir_congr PO _ (hgmime PO)]
                      simp [hdir])]
                    simp only [hunowned, Bool.false_eq_true, if_false]
                    have hpair4 : get_pair_copy_entry cfg
                        (move_entry_action s C.entry_id PO.entry_id) entry =
                        .ok (some (if C.entry_id == C.entry_id then
                          { C with parent_id := PO.entry_id } else C)) :=
                      get_pair_move_stable cfg s entry entry C.entry_id PO.entry_id
                        (some C) rfl rfl rfl hC
                    rw [if_pos (by simp)] at hpair4
                    simp only [hpair4]
                    rw [if_pos (by rw [hgid PO]; simp)]



/-- The side conditions under which a second application of the same plan
item is a no-op (see the counterexample
`apply_create_folder_owned_twice_success` for why they are needed): for
CREATE_FOLDER / COPY_FILE / MOVE_ENTRY items the target entry must not be
owned by the configured account (the plan builder only emits those items
for unowned entries), and for MOVE_ENTRY the entry must not be its own
recorded pair copy. -/
def secondApplySafe (cfg : ConfigProgram) (s : DriveState) (plan : PlanReport) : Prop :=
  ∀ eid entry, plan.entry_id = some eid → findEntry s eid = some entry →
    ((plan.item_action = "create-folder" ∨ plan.item_action = "copy-file" ∨
        plan.item_action = "move-entry") →
      entry.is_owned_by cfg.account.account_id = .ok false) ∧
    (plan.item_action = "move-entry" →
      ∀ c ∈ getEntriesByProperty s key_orig entry.entry_id,
        c.entry_id ≠ entry.entry_id)

/-- Claim C1 (amended): for a plan item whose application returns SUCCESS,
under `secondApplySafe`, applying the same item again to the resulting
store returns SKIPPED and leaves the store — including the count of remote
mutation calls — unchanged: the executor re-checks live state and skips
when the pair already exists, when the name already equals the target, when
the permission is absent, or when the entry is already under the target
parent. -/
theorem apply_plan_idempotent (cfg : ConfigProgram) (s : DriveState)
    (plan : PlanReport) (fid fid2 d : String) (s₁ : DriveState)
    (hsafe : secondApplySafe cfg s plan)
    (h : apply_plan cfg s plan fid = .ok ((PlanReportOutcomes.SUCCESS, d), s₁)) :
    ∃ d₂, apply_plan cfg s₁ plan fid2 =
      .ok ((PlanReportOutcomes.SKIPPED, d₂), s₁) := by
  unfold apply_plan at h
  split at h
  · exact absurd h (by simp)
  · next eid heid0 =>
    split at h
    · exact absurd h (by simp)
    · next entry hfind0 =>
      have heq : entry.entry_id = eid := by
        have := List.find?_some hfind0
        simpa using this
      subst heq
      obtain ⟨hsafeA, hsafeB⟩ := hsafe entry.entry_id entry heid0 hfind0
      by_cases ha1 : (plan.item_action == "create-folder") = true
      · rw [if_pos ha1] at h
        have ha1e : plan.item_action = "create-folder" := by simpa using ha1
        exact ⟨_, second_pass_create cfg s plan entry fid fid2 d s₁ ha1e heid0 hfind0
          (hsafeA (Or.inl ha1e)) h⟩
      · rw [if_neg ha1] at h
        by_cases ha2 : (plan.item_action == "copy-file") = true
        · rw [if_pos ha2] at h
          have ha2e : plan.item_action = "copy-file" := by simpa using ha2
          exact ⟨_, second_pass_copy cfg s plan entry fid fid2 d s₁ ha2e heid0 hfind0
            (hsafeA (Or.inr (Or.inl ha2e))) h⟩
        · rw [if_neg ha2] at h
          by_cases ha3 : (plan.item_action == "rename-file") = true
          · rw [if_pos ha3] at h
            have ha3e : plan.item_action = "rename-file" := by simpa using ha3
            exact ⟨_, second_pass_rename cfg s plan entry fid2 d s₁ ha3e heid0 hfind0 h⟩
          · rw [if_neg ha3] at h
            by_cases ha4 : (plan.item_action == "delete-permission") = true
            · rw [if_pos ha4] at h
              have ha4e : plan.item_action = "delete-permission" := by simpa using ha4
              exact ⟨_, second_pass_delete cfg s plan entry fid2 d s₁ ha4e heid0 hfind0 h⟩
            · rw [if_neg ha4] at h
              by_cases ha5 : (plan.item_action == "move-entry") = true
              · rw [if_pos ha5] at h
                have ha5e : plan.item_action = "move-entry" := by simpa using ha5
                exact ⟨_, second_pass_move cfg s plan entry fid2 d s₁ ha5e heid0 hfind0
                  (hsafeA (Or.inr (Or.inr ha5e))) (hsafeB ha5e) h⟩
              · rw [if_neg ha5] at h
                exact absurd h (by simp)



def editorPermission : GoogleDrivePermission :=
  { entry_type := PermType.user
    role := PermRole.editor
    entry_id := "perm-editor-1"
    user_email := some "other@example.com"
    display_name := some "Other" }

def sharedDocEntry : GoogleDriveEntry :=
  { name := "Doc2"
    mime_type := "application/pdf"
    entry_id := "e9"
    parent_id := "top"
    properties_shared := []
    permissions_all := [ownerPermissionOf "current-user@example.com", editorPermission] }

def sharedDocState : DriveState := { entries := [sharedDocEntry], muts := 0 }

def sharedDocState1 : DriveState :=
  { entries := [{ sharedDocEntry with
      permissions_all := [ownerPermissionOf "current-user@example.com"] }]
    muts := 1 }

def editorDeletePlan : PlanReport :=
  { item_action := "delete-permission"
    entry_id := some "e9"
    permission_id := some "perm-editor-1"
    begin_user_email := some "other@example.com"
    end_user_email := none
    end_entry_name := none
    end_entry_path := none }

theorem apply_plan_idempotent_witness :
    ∃ d₂, apply_plan cfgAllOn sharedDocState1 editorDeletePlan "N2" =
      .ok ((PlanReportOutcomes.SKIPPED, d₂), sharedDocState1) :=
  apply_plan_idempotent cfgAllOn sharedDocState editorDeletePlan "N1" "N2"
    "Deleted permission." sharedDocState1
    (by
      intro eid entry h1 h2
      refine ⟨fun hor => ?_, fun hmv => ?_⟩
      · rcases hor with h | h | h <;> exact absurd h (by decide)
      · exact absurd hmv (by decide))
    rfl


end FileMover
